import Mathlib

/-!
Verification development for the FlavorGraph recipe-recommendation engine
(`Backend/` Python sources).  The data model and the algorithms are embedded
shallowly:

* Python `float` arithmetic is modelled exactly: the greedy and backtracking
  matchers only ever combine rational constants, so they are embedded over `ℚ`
  (fully executable); the graph component computes cosine similarities with
  square roots, so it is embedded over `ℝ`.
* Python dicts (`self.recipes`, `self.ingredients`) are association lists in
  insertion order; `dictGet` is `dict.get` / `in` (first binding wins, keys are
  unique in actual use).
* Python sets of ingredient ids are modelled as lists; set comprehensions such
  as `{ri.ingredient_id for ri in ...}` become `dedup` of the mapped list, so
  that cardinalities agree.  Where the source iterates over a set (whose order
  Python leaves unspecified) the embedding iterates over the canonical list.
* Python's `list.sort(key=..., reverse=True)` is a stable descending sort;
  it is modelled by `List.insertionSort` with the relation `descBy key`
  (stable sorts with the same key agree on the result).
* `heapq` with `(-score, recipe_id)` tuples pops pairs in ascending
  lexicographic order; this is modelled by repeatedly removing the
  lexicographically least pair.
* Python truthiness tests on optional ints / strings / lists (`if request.x:`)
  are modelled explicitly: `none`, `0`, the empty string and the empty list are
  falsy.
-/

namespace FlavorGraph

/-- Ingredient categories, from `models/ingredient.py` (`IngredientCategory`). -/
inductive IngredientCategory where
  | protein | vegetable | fruit | grain | dairy | spice | herb
  | condiment | fat | liquid | sweetener | nuts_seeds
deriving DecidableEq, Repr

/-- Recipe difficulty levels, from `models/recipe.py` (`DifficultyLevel`). -/
inductive DifficultyLevel where
  | beginner | intermediate | advanced | expert
deriving DecidableEq, Repr

/-- Meal types, from `models/recipe.py` (`MealType`). -/
inductive MealType where
  | breakfast | lunch | dinner | snack | dessert | appetizer | beverage
deriving DecidableEq, Repr

/-- Six bounded flavor axes, from `models/ingredient.py` (`FlavorProfile`).
Pydantic bounds them to `[0,10]`; the bounds are not needed by any claim and
are not baked into the type. -/
structure FlavorProfile where
  sweetness : ℚ
  saltiness : ℚ
  sourness : ℚ
  bitterness : ℚ
  umami : ℚ
  spiciness : ℚ
deriving DecidableEq, Repr

/-- Ingredient entity, from `models/ingredient.py` (`Ingredient`).  Fields that
no modelled algorithm reads (`nutritional_info`, `storage_info`, `season`,
`origin`) are omitted. -/
structure Ingredient where
  id : String
  name : String
  category : IngredientCategory
  aliases : List String
  flavor_profile : FlavorProfile
  common_substitutes : List String
  dietary_tags : List String
  cost_level : Option ℤ
deriving DecidableEq, Repr

/-- One ingredient line of a recipe, from `models/recipe.py`
(`RecipeIngredient`).  The per-line `substitutes` list and `preparation` note
are never read by the algorithms and are omitted. -/
structure RecipeIngredient where
  ingredient_id : String
  quantity : ℚ
  unit : String
  is_optional : Bool
deriving DecidableEq, Repr

/-- Recipe entity, from `models/recipe.py` (`Recipe`).  Cooking steps,
nutrition and bookkeeping metadata are omitted; every field read by the three
matchers or the orchestrator is present. -/
structure Recipe where
  id : String
  name : String
  cuisine : Option String
  meal_types : List MealType
  difficulty : DifficultyLevel
  prep_time_minutes : ℤ
  cook_time_minutes : ℤ
  ingredients : List RecipeIngredient
  dietary_tags : List String
  equipment_needed : List String
  average_rating : Option ℚ
  popularity_score : ℚ
  ingredient_complexity_score : Option ℚ
deriving DecidableEq, Repr

/-- A recipe match produced by a matcher, from `models/recipe.py`
(`RecipeMatch`); parametric in the score type (`ℚ` for the exact greedy /
backtracking matchers, `ℝ` once graph-derived quantities enter).  The
free-text `reasoning` field is omitted. -/
structure RecipeMatch (α : Type) where
  recipe : Recipe
  match_score : α
  available_ingredients : List String
  missing_ingredients : List String
  substitutable_ingredients : List String
  confidence_score : α
  algorithm_used : String
deriving DecidableEq, Repr

/-- Suggestion request, from `models/recipe.py` (`RecipeSuggestionRequest`).
`max_missing_ingredients` is an unconstrained Python `int` (default 3), hence
`ℤ`. -/
structure RecipeSuggestionRequest where
  available_ingredients : List String
  dietary_preferences : List String
  meal_type : Option MealType
  max_missing_ingredients : ℤ
  max_prep_time : Option ℤ
  max_cook_time : Option ℤ
  difficulty_level : Option DifficultyLevel
  cuisine_preference : Option String
  exclude_ingredients : List String
  algorithm_preference : Option String
deriving DecidableEq, Repr

/-! ### Python-semantics helpers -/

/-- Python dict membership/lookup on an insertion-ordered association list:
the first binding of the key wins (`d.get(k)` / `k in d`). -/
def dictGet {β : Type} (d : List (String × β)) (k : String) : Option β :=
  (d.find? (fun p => p.1 = k)).map (fun p => p.2)

/-- Python truthiness of an optional int (`None` and `0` are falsy). -/
def truthyInt (o : Option ℤ) : Prop :=
  match o with
  | none => False
  | some n => n ≠ 0

instance : (o : Option ℤ) → Decidable (truthyInt o)
  | none => isFalse (fun h => h)
  | some n => inferInstanceAs (Decidable (n ≠ 0))

/-- Python truthiness of an optional rational (`None` and `0.0` are falsy). -/
def truthyRat (o : Option ℚ) : Prop :=
  match o with
  | none => False
  | some q => q ≠ 0

instance : (o : Option ℚ) → Decidable (truthyRat o)
  | none => isFalse (fun h => h)
  | some q => inferInstanceAs (Decidable (q ≠ 0))

/-- Python truthiness of an optional string (`None` and `""` are falsy). -/
def truthyStr (o : Option String) : Prop :=
  match o with
  | none => False
  | some s => s ≠ ""

instance : (o : Option String) → Decidable (truthyStr o)
  | none => isFalse (fun h => h)
  | some s => inferInstanceAs (Decidable (s ≠ ""))

instance {l1 l2 : List String} : Decidable (l1 ⊆ l2) :=
  inferInstanceAs (Decidable (∀ a ∈ l1, a ∈ l2))

/-- Python's binary `max` (kernel-computable; equal to `max`). -/
def pyMax {α : Type} [LinearOrder α] (a b : α) : α := if a ≤ b then b else a

/-- Python's binary `min` (kernel-computable; equal to `min`). -/
def pyMin {α : Type} [LinearOrder α] (a b : α) : α := if a ≤ b then a else b

theorem pyMax_eq_max {α : Type} [LinearOrder α] (a b : α) : pyMax a b = max a b :=
  (max_def a b).symm

theorem pyMin_eq_min {α : Type} [LinearOrder α] (a b : α) : pyMin a b = min a b :=
  (min_def a b).symm

/-- The distinct required ingredient ids of a recipe:
`{ri.ingredient_id for ri in recipe.ingredients if not ri.is_optional}`. -/
def required_ids (r : Recipe) : List String :=
  ((r.ingredients.filter (fun ri => !ri.is_optional)).map
    (fun ri => ri.ingredient_id)).dedup

/-- The distinct optional ingredient ids of a recipe:
`{ri.ingredient_id for ri in recipe.ingredients if ri.is_optional}`. -/
def optional_ids (r : Recipe) : List String :=
  ((r.ingredients.filter (fun ri => ri.is_optional)).map
    (fun ri => ri.ingredient_id)).dedup

/-- All distinct ingredient ids of a recipe (`required.union(optional)`). -/
def all_ids (r : Recipe) : List String :=
  (required_ids r ++ optional_ids r).dedup

/-- Descending-by-key ordering used to model Python's stable
`sort(key=..., reverse=True)`. -/
def descBy {α β : Type} [LinearOrder β] (key : α → β) (a b : α) : Prop :=
  key b ≤ key a

instance {α β : Type} [LinearOrder β] (key : α → β) : DecidableRel (descBy key) :=
  fun a b => inferInstanceAs (Decidable (key b ≤ key a))

instance {α β : Type} [LinearOrder β] (key : α → β) : IsTotal α (descBy key) :=
  ⟨fun a b => le_total (key b) (key a)⟩

instance {α β : Type} [LinearOrder β] (key : α → β) : IsTrans α (descBy key) :=
  ⟨fun _ _ _ h1 h2 => le_trans h2 h1⟩

/-- Stable descending sort by a key (model of `list.sort(key=..., reverse=True)`). -/
def sortDescBy {α β : Type} [LinearOrder β] (key : α → β) (l : List α) : List α :=
  l.insertionSort (descBy key)

/-! ### Ingredient-name normalization

`_normalize_ingredient_identifiers` is implemented three times with identical
logic (`recipe_service.py`, `greedy_algorithm.py`, `backtracking_algorithm.py`),
differing only in which ingredient dict `self.ingredients` refers to; all
three are modelled by the functions below. -/

/-- Resolution of one caller-supplied ingredient string: keep it if it is an
ingredient id, otherwise take the first ingredient (in dict insertion order)
whose lowercased name equals the lowercased string or whose lowercased aliases
contain it; `none` if nothing matches. -/
def resolve_ingredient_identifier (ingredients : List (String × Ingredient))
    (nm : String) : Option String :=
  if (dictGet ingredients nm).isSome then some nm
  else
    (ingredients.find? (fun p =>
      p.2.name.toLower = nm.toLower ∨
        (p.2.aliases.map (fun a => a.toLower)).contains nm.toLower)).map
      (fun p => p.1)

/-- `_normalize_ingredient_identifiers`: resolve every supplied string,
silently dropping the unresolvable ones. -/
def normalize_ingredient_identifiers (ingredients : List (String × Ingredient))
    (names : List String) : List String :=
  names.filterMap (resolve_ingredient_identifier ingredients)

/-! ### Greedy matcher (`algorithms/greedy_algorithm.py`)

All arithmetic in this module is on rational constants, so it is embedded
exactly over `ℚ` and is fully executable. -/

/-- `GreedyRecipeMatcher._quick_filter_recipe`: hard-constraint filter
(time ceilings, difficulty, meal type, dietary-tag superset, excluded
ingredients). -/
def quick_filter_recipe (recipe : Recipe) (request : RecipeSuggestionRequest) :
    Prop :=
  (truthyInt request.max_prep_time →
    recipe.prep_time_minutes ≤ (request.max_prep_time.getD 0)) ∧
  (truthyInt request.max_cook_time →
    recipe.cook_time_minutes ≤ (request.max_cook_time.getD 0)) ∧
  (∀ d, request.difficulty_level = some d → recipe.difficulty = d) ∧
  (∀ mt, request.meal_type = some mt → mt ∈ recipe.meal_types) ∧
  (request.dietary_preferences ≠ [] →
    (request.dietary_preferences.map (fun p => p.toLower)) ⊆
      (recipe.dietary_tags.map (fun t => t.toLower))) ∧
  (request.exclude_ingredients ≠ [] →
    ∀ ri ∈ recipe.ingredients, ri.ingredient_id ∉ request.exclude_ingredients)

instance (recipe : Recipe) (request : RecipeSuggestionRequest) :
    Decidable (quick_filter_recipe recipe request) :=
  inferInstanceAs (Decidable (_ ∧ _ ∧ _ ∧ _ ∧ _ ∧ _))

/-- `GreedyRecipeMatcher._calculate_greedy_score`: fast heuristic score.
Returns `1.0` when the recipe has no required ingredients, `0.0` (hard
cutoff) when the number of missing required ingredients exceeds
`request.max_missing_ingredients`, else the clamped heuristic sum. -/
def calculate_greedy_score (recipe : Recipe) (available : List String)
    (request : RecipeSuggestionRequest) : ℚ :=
  let required := required_ids recipe
  let optionals := optional_ids recipe
  if required = [] then 1
  else
    let direct_required := required.filter (fun i => i ∈ available)
    let direct_optional := optionals.filter (fun i => i ∈ available)
    let ratio : ℚ := (direct_required.length : ℚ) / (required.length : ℚ)
    let base0 := ratio * ratio
    let base1 :=
      if optionals ≠ [] then
        base0 + (direct_optional.length : ℚ) / (optionals.length : ℚ) * (1/10)
      else base0
    let missing_count : ℕ := required.length - direct_required.length
    if (missing_count : ℤ) > request.max_missing_ingredients then 0
    else
      let base2 := base1 -
        (missing_count : ℚ) / (pyMax (required.length : ℚ) 1) * (3/10)
      let base3 :=
        if recipe.popularity_score > 0 then
          base2 + pyMin (recipe.popularity_score * (1/10)) (2/10)
        else base2
      let base4 :=
        if truthyRat recipe.average_rating then
          base3 + (recipe.average_rating.getD 0) / 5 * (15/100)
        else base3
      let base5 :=
        if truthyStr request.cuisine_preference ∧ truthyStr recipe.cuisine ∧
            (recipe.cuisine.getD "").toLower =
              (request.cuisine_preference.getD "").toLower then
          base4 + 15/100
        else base4
      let total_time := recipe.prep_time_minutes + recipe.cook_time_minutes
      let base6 :=
        if total_time ≤ 30 then base5 + 1/10
        else if total_time > 120 then base5 - 1/10
        else base5
      pyMin 1 (pyMax 0 base6)

/-- `GreedyRecipeMatcher._quick_dietary_check`: the two tag sets intersect, or
both are empty. -/
def quick_dietary_check (i1 i2 : Ingredient) : Prop :=
  (∃ t ∈ i1.dietary_tags, t ∈ i2.dietary_tags) ∨
    (i1.dietary_tags = [] ∧ i2.dietary_tags = [])

instance (i1 i2 : Ingredient) : Decidable (quick_dietary_check i1 i2) :=
  inferInstanceAs (Decidable (_ ∨ _))

/-- `GreedyRecipeMatcher._find_greedy_substitutes`: for each missing
ingredient, the first available declared substitute, else the first available
same-category ingredient passing the quick dietary check. -/
def find_greedy_substitutes (ingredients : List (String × Ingredient))
    (missing : List String) (available : List String) :
    List (String × String) :=
  missing.foldl (fun acc missing_id =>
    match dictGet ingredients missing_id with
    | none => acc
    | some missing_ing =>
      match missing_ing.common_substitutes.find? (fun s => s ∈ available) with
      | some sub => acc ++ [(missing_id, sub)]
      | none =>
        match available.find? (fun aid =>
            match dictGet ingredients aid with
            | none => False
            | some avail_ing =>
              missing_ing.category = avail_ing.category ∧
                quick_dietary_check missing_ing avail_ing) with
        | some aid => acc ++ [(missing_id, aid)]
        | none => acc) []

/-- The six pieces of basic equipment assumed available in
`GreedyRecipeMatcher._refine_score`. -/
def basic_equipment : List String :=
  ["oven", "stove", "pan", "pot", "knife", "cutting board"]

/-- `GreedyRecipeMatcher._refine_score`: substitute bonus, complexity penalty,
advanced-equipment penalty, clamp to `[0,1]`. -/
def refine_score (initial_score : ℚ) (recipe : Recipe)
    (missing_required : List String) (substitutable : List (String × String)) :
    ℚ :=
  let s1 :=
    if substitutable ≠ [] then
      initial_score + (substitutable.length : ℚ) /
        (pyMax (missing_required.length : ℚ) 1) * (2/10)
    else initial_score
  let s2 :=
    if truthyRat recipe.ingredient_complexity_score ∧
        missing_required.length > 2 ∧
        recipe.ingredient_complexity_score.getD 0 > 7/10 then
      s1 - 1/10
    else s1
  let advanced := (recipe.equipment_needed.dedup).filter
    (fun e => e ∉ basic_equipment)
  let s3 :=
    if recipe.equipment_needed ≠ [] ∧ advanced ≠ [] then
      s2 - (advanced.length : ℚ) * (5/100)
    else s2
  pyMin 1 (pyMax 0 s3)

/-- `GreedyRecipeMatcher._calculate_confidence`: score minus a missing-ratio
penalty (≤ 0.25), +0.1 above 0.8, scaled by 0.95 and clamped. -/
def calculate_greedy_confidence (score : ℚ) (missing_count total_required : ℕ) :
    ℚ :=
  let c1 :=
    if total_required > 0 then
      score - (missing_count : ℚ) / (total_required : ℚ) * (25/100)
    else score
  let c2 := if score > 8/10 then pyMin 1 (c1 + 1/10) else c1
  pyMax 0 (pyMin 1 (c2 * (95/100)))

/-- `GreedyRecipeMatcher._create_detailed_match`: detailed ingredient analysis
and refined score for one heap-popped candidate. -/
def create_detailed_match (recipes : List (String × Recipe))
    (ingredients : List (String × Ingredient)) (recipe_id : String)
    (available : List String) (initial_score : ℚ) :
    Option (RecipeMatch ℚ) :=
  match dictGet recipes recipe_id with
  | none => none
  | some recipe =>
    let required := required_ids recipe
    let alls := all_ids recipe
    let direct_matches := alls.filter (fun i => i ∈ available)
    let missing_required := required.filter (fun i => i ∉ available)
    let substitutable := find_greedy_substitutes ingredients missing_required
      available
    let refined := refine_score initial_score recipe missing_required
      substitutable
    let confidence := calculate_greedy_confidence refined
      missing_required.length required.length
    some
      { recipe := recipe
        match_score := refined
        available_ingredients := direct_matches
        missing_ingredients := missing_required
        substitutable_ingredients := substitutable.map (fun p => p.1)
        confidence_score := confidence
        algorithm_used := "greedy" }

/-- Lexicographic order on `(-score, recipe_id)` heap entries: Python tuple
comparison, under which `heapq.heappop` removes the least entry. -/
def heapLexLe (a b : ℚ × String) : Prop :=
  a.1 < b.1 ∨ (a.1 = b.1 ∧ (a.2 < b.2 ∨ a.2 = b.2))

instance (a b : ℚ × String) : Decidable (heapLexLe a b) :=
  inferInstanceAs (Decidable (_ ∨ _))

/-- The least heap entry under `heapLexLe` (the entry `heappop` returns). -/
def heapMin (x : ℚ × String) (l : List (ℚ × String)) : ℚ × String :=
  l.foldl (fun m e => if heapLexLe m e then m else e) x

/-- The candidate-extraction loop of `find_recipes_greedy`: pop the least
`(-score, id)` entry, build its detailed match, until `max_results` matches
are built or `2 * max_results` candidates were processed or the heap is
empty.  `fuel` bounds the recursion (the heap size strictly decreases). -/
def extract_top_matches (recipes : List (String × Recipe))
    (ingredients : List (String × Ingredient)) (available : List String)
    (max_results : ℕ) :
    ℕ → List (ℚ × String) → List (RecipeMatch ℚ) → ℕ → List (RecipeMatch ℚ)
  | 0, _, built, _ => built
  | _ + 1, [], built, _ => built
  | fuel + 1, x :: rest, built, processed =>
    if built.length < max_results ∧ processed < max_results * 2 then
      let entry := heapMin x rest
      let heap1 := (x :: rest).erase entry
      let score := -entry.1
      let built1 :=
        match create_detailed_match recipes ingredients entry.2 available
          score with
        | some m => built ++ [m]
        | none => built
      extract_top_matches recipes ingredients available max_results fuel heap1
        built1 (processed + 1)
    else built

/-- `GreedyRecipeMatcher.find_recipes_greedy`: normalize the available
ingredients, score every recipe passing the quick filter, keep scores above
`0.1` in a max-heap, then extract and refine the top candidates. -/
def find_recipes_greedy (recipes : List (String × Recipe))
    (ingredients : List (String × Ingredient))
    (request : RecipeSuggestionRequest) (max_results : ℕ) :
    List (RecipeMatch ℚ) :=
  let available := normalize_ingredient_identifiers ingredients
    request.available_ingredients
  let recipe_scores := recipes.foldl (fun acc p =>
    if quick_filter_recipe p.2 request then
      let score := calculate_greedy_score p.2 available request
      if score > 1/10 then acc ++ [(-score, p.1)] else acc
    else acc) []
  extract_top_matches recipes ingredients available max_results
    recipe_scores.length recipe_scores [] 0

/-! ### Backtracking matcher (`algorithms/backtracking_algorithm.py`)

The matcher object's mutable fields (`best_matches`, `exploration_count`,
`max_explorations`) are threaded explicitly as `BTState`; `__init__` sets
`max_explorations = 10000`. -/

/-- Mutable search state of `BacktrackingRecipeMatcher`. -/
structure BTState where
  best_matches : List (RecipeMatch ℚ)
  exploration_count : ℕ
  max_explorations : ℕ
deriving DecidableEq, Repr

/-- The state set up by `BacktrackingRecipeMatcher.__init__` and reset at the
start of `find_optimal_recipes`. -/
def initial_bt_state : BTState :=
  { best_matches := [], exploration_count := 0, max_explorations := 10000 }

/-- `BacktrackingRecipeMatcher._check_dietary_compatibility`: the lowercased
preferences are a subset of the recipe's lowercased dietary tags. -/
def check_dietary_compatibility (recipe : Recipe)
    (dietary_preferences : List String) : Prop :=
  (dietary_preferences.map (fun p => p.toLower)) ⊆
    (recipe.dietary_tags.map (fun t => t.toLower))

instance (recipe : Recipe) (dp : List String) :
    Decidable (check_dietary_compatibility recipe dp) :=
  inferInstanceAs (Decidable (_ ⊆ _))

/-- `BacktrackingRecipeMatcher._is_recipe_viable`: dietary, exclusion and
missing-ingredient constraints for one candidate recipe. -/
def is_recipe_viable (recipes : List (String × Recipe)) (recipe_id : String)
    (available : List String) (request : RecipeSuggestionRequest) : Prop :=
  match dictGet recipes recipe_id with
  | none => False
  | some recipe =>
    (request.dietary_preferences ≠ [] →
      check_dietary_compatibility recipe request.dietary_preferences) ∧
    (request.exclude_ingredients ≠ [] →
      ∀ ri ∈ recipe.ingredients,
        ri.ingredient_id ∉ request.exclude_ingredients) ∧
    ((((required_ids recipe).filter (fun i => i ∉ available)).length : ℤ) ≤
      request.max_missing_ingredients)

instance (recipes : List (String × Recipe)) (rid : String)
    (available : List String) (request : RecipeSuggestionRequest) :
    Decidable (is_recipe_viable recipes rid available request) := by
  unfold is_recipe_viable
  exact match dictGet recipes rid with
    | none => isFalse (fun h => h)
    | some _ => inferInstanceAs (Decidable (_ ∧ _ ∧ _))

/-- `BacktrackingRecipeMatcher._check_dietary_tags_compatibility`: one tag set
contains the other. -/
def check_dietary_tags_compatibility (i1 i2 : Ingredient) : Prop :=
  i1.dietary_tags ⊆ i2.dietary_tags ∨ i2.dietary_tags ⊆ i1.dietary_tags

instance (i1 i2 : Ingredient) :
    Decidable (check_dietary_tags_compatibility i1 i2) :=
  inferInstanceAs (Decidable (_ ∨ _))

/-- `BacktrackingRecipeMatcher._find_substitutable_ingredients`: first
available declared substitute, else first available same-category ingredient
with subset-compatible dietary tags. -/
def find_substitutable_ingredients (ingredients : List (String × Ingredient))
    (missing : List String) (available : List String) :
    List (String × String) :=
  missing.foldl (fun acc missing_id =>
    match dictGet ingredients missing_id with
    | none => acc
    | some missing_ing =>
      match missing_ing.common_substitutes.find? (fun s => s ∈ available) with
      | some sub => acc ++ [(missing_id, sub)]
      | none =>
        match available.find? (fun aid =>
            match dictGet ingredients aid with
            | none => False
            | some avail_ing =>
              missing_ing.category = avail_ing.category ∧
                check_dietary_tags_compatibility missing_ing avail_ing) with
        | some aid => acc ++ [(missing_id, aid)]
        | none => acc) []

/-- `BacktrackingRecipeMatcher._calculate_backtracking_score`: required-match
ratio plus optional / difficulty / time / cuisine / meal-type adjustments,
clamped to `[0,1]` (returns `1.0` when there are no required ingredients). -/
def calculate_backtracking_score (recipe : Recipe)
    (direct_required_matches required direct_matches alls : List String)
    (request : RecipeSuggestionRequest) : ℚ :=
  if required = [] then 1
  else
    let base0 : ℚ :=
      (direct_required_matches.length : ℚ) / (required.length : ℚ)
    let optionals := alls.filter (fun i => i ∉ required)
    let base1 :=
      if optionals ≠ [] then
        base0 + ((direct_matches.filter (fun i => i ∈ optionals)).length : ℚ) /
          (optionals.length : ℚ) * (15/100)
      else base0
    let base2 :=
      match request.difficulty_level with
      | some d => if recipe.difficulty ≠ d then base1 - 1/10 else base1
      | none => base1
    let base3 :=
      if truthyInt request.max_prep_time then
        if recipe.prep_time_minutes ≤ request.max_prep_time.getD 0 then
          base2 + 5/100
        else base2 - 2/10
      else base2
    let base4 :=
      if truthyInt request.max_cook_time then
        if recipe.cook_time_minutes ≤ request.max_cook_time.getD 0 then
          base3 + 5/100
        else base3 - 2/10
      else base3
    let base5 :=
      if truthyStr request.cuisine_preference ∧ truthyStr recipe.cuisine ∧
          (recipe.cuisine.getD "").toLower =
            (request.cuisine_preference.getD "").toLower then
        base4 + 1/10
      else base4
    let base6 :=
      match request.meal_type with
      | some mt => if mt ∈ recipe.meal_types then base5 + 1/10 else base5
      | none => base5
    pyMin 1 (pyMax 0 base6)

/-- `BacktrackingRecipeMatcher._calculate_confidence_score`: score minus a
missing-ratio penalty (≤ 0.3), +0.1 above 0.9, clamped to `[0,1]`. -/
def calculate_bt_confidence (match_score : ℚ)
    (missing_count total_required : ℕ) : ℚ :=
  let c1 :=
    if total_required > 0 then
      match_score - (missing_count : ℚ) / (total_required : ℚ) * (3/10)
    else match_score
  let c2 := if match_score > 9/10 then pyMin 1 (c1 + 1/10) else c1
  pyMax 0 (pyMin 1 c2)

/-- `BacktrackingRecipeMatcher._create_recipe_match`: detailed analysis of one
recipe against the available set. -/
def create_recipe_match_bt (recipes : List (String × Recipe))
    (ingredients : List (String × Ingredient))
    (request : RecipeSuggestionRequest) (available : List String)
    (recipe_id : String) : Option (RecipeMatch ℚ) :=
  match dictGet recipes recipe_id with
  | none => none
  | some recipe =>
    let required := required_ids recipe
    let alls := all_ids recipe
    let direct_matches := alls.filter (fun i => i ∈ available)
    let direct_required_matches := required.filter (fun i => i ∈ available)
    let missing_required := required.filter (fun i => i ∉ available)
    let match_score := calculate_backtracking_score recipe
      direct_required_matches required direct_matches alls request
    let substitutable := find_substitutable_ingredients ingredients
      missing_required available
    let confidence := calculate_bt_confidence match_score
      missing_required.length required.length
    some
      { recipe := recipe
        match_score := match_score
        available_ingredients := direct_matches
        missing_ingredients := missing_required
        substitutable_ingredients := substitutable.map (fun p => p.1)
        confidence_score := confidence
        algorithm_used := "backtracking" }

/-- `BacktrackingRecipeMatcher._evaluate_solution`: score every recipe of the
solution, appending matches above `0.1` whose recipe is not already among the
best matches. -/
def evaluate_solution (recipes : List (String × Recipe))
    (ingredients : List (String × Ingredient))
    (request : RecipeSuggestionRequest) (available : List String)
    (solution : List String) (best : List (RecipeMatch ℚ)) :
    List (RecipeMatch ℚ) :=
  solution.foldl (fun best recipe_id =>
    if (dictGet recipes recipe_id).isSome then
      match create_recipe_match_bt recipes ingredients request available
        recipe_id with
      | some m =>
        if m.match_score > 1/10 ∧
            recipe_id ∉ best.map (fun b => b.recipe.id) then
          best ++ [m]
        else best
      | none => best
    else best) best

/-- Minimum match score of a list of matches
(`min(match.match_score for match in self.best_matches)`; the Python
expression is only reached on a non-empty list, the `[]` value is junk). -/
def min_match_score (l : List (RecipeMatch ℚ)) : ℚ :=
  match l with
  | [] => 0
  | m :: rest => rest.foldl (fun acc x => pyMin acc x.match_score) m.match_score

/-- `BacktrackingRecipeMatcher._backtrack_search`: recursive binary
include/exclude search over the candidate list.  The Python index `current_index`
into `candidate_recipes` is modelled by recursing on the remaining candidate
list; the exploration counter is incremented on entry, before the cap check. -/
def backtrack_search (recipes : List (String × Recipe))
    (ingredients : List (String × Ingredient))
    (request : RecipeSuggestionRequest) (max_results : ℕ)
    (available : List String) :
    List String → List String → BTState → BTState
  | [], solution, st =>
    let st1 := { st with exploration_count := st.exploration_count + 1 }
    if st1.exploration_count > st1.max_explorations then st1
    else if solution ≠ [] then
      let best1 := evaluate_solution recipes ingredients request available
        solution st1.best_matches
      { st1 with best_matches := best1 }
    else st1
  | recipe_id :: rest, solution, st =>
    let st1 := { st with exploration_count := st.exploration_count + 1 }
    if st1.exploration_count > st1.max_explorations then st1
    else if max_results ≤ solution.length then
      if solution ≠ [] then
        let best1 := evaluate_solution recipes ingredients request available
          solution st1.best_matches
        { st1 with best_matches := best1 }
      else st1
    else if max_results * 2 ≤ st1.best_matches.length ∧
        min_match_score st1.best_matches > 8/10 then st1
    else
      let st2 :=
        if is_recipe_viable recipes recipe_id available request then
          backtrack_search recipes ingredients request max_results available
            rest (solution ++ [recipe_id]) st1
        else st1
      backtrack_search recipes ingredients request max_results available rest
        solution st2

/-- `BacktrackingRecipeMatcher._filter_recipes_by_constraints`: hard filter on
time, difficulty, meal type and cuisine. -/
def filter_recipes_by_constraints (recipes : List (String × Recipe))
    (request : RecipeSuggestionRequest) : List (String × Recipe) :=
  recipes.filter (fun p =>
    (truthyInt request.max_prep_time →
      p.2.prep_time_minutes ≤ request.max_prep_time.getD 0) ∧
    (truthyInt request.max_cook_time →
      p.2.cook_time_minutes ≤ request.max_cook_time.getD 0) ∧
    (∀ d, request.difficulty_level = some d → p.2.difficulty = d) ∧
    (∀ mt, request.meal_type = some mt → mt ∈ p.2.meal_types) ∧
    (truthyStr request.cuisine_preference → truthyStr p.2.cuisine →
      (p.2.cuisine.getD "").toLower =
        (request.cuisine_preference.getD "").toLower))

/-- `BacktrackingRecipeMatcher.find_optimal_recipes`: reset the state, filter
the candidates, run the backtracking search, sort the accumulated matches by
descending score and truncate.  The returned pair also exposes the final
mutable state (`self.best_matches` / `self.exploration_count`). -/
def find_optimal_recipes (recipes : List (String × Recipe))
    (ingredients : List (String × Ingredient))
    (request : RecipeSuggestionRequest) (max_results : ℕ) :
    List (RecipeMatch ℚ) × BTState :=
  let available := normalize_ingredient_identifiers ingredients
    request.available_ingredients
  let candidates := filter_recipes_by_constraints recipes request
  if candidates = [] then ([], initial_bt_state)
  else
    let final := backtrack_search recipes ingredients request max_results
      available (candidates.map (fun p => p.1)) [] initial_bt_state
    let sorted := sortDescBy (fun m => m.match_score) final.best_matches
    (sorted.take max_results, final)

/-! ### Lemmas about the backtracking search counter (claim C2) -/

theorem backtrack_search_max_explorations (recipes : List (String × Recipe))
    (ingredients : List (String × Ingredient))
    (request : RecipeSuggestionRequest) (max_results : ℕ)
    (available : List String) :
    ∀ (cands solution : List String) (st : BTState),
      (backtrack_search recipes ingredients request max_results available
        cands solution st).max_explorations = st.max_explorations := by
  intro cands
  induction cands with
  | nil =>
    intro solution st
    simp only [backtrack_search]
    split
    · rfl
    · split <;> rfl
  | cons rid rest ih =>
    intro solution st
    simp only [backtrack_search]
    split
    · rfl
    · split
      · split <;> rfl
      · split
        · rfl
        · rw [ih]
          split <;> [rw [ih]; rfl]

theorem backtrack_search_count_mono (recipes : List (String × Recipe))
    (ingredients : List (String × Ingredient))
    (request : RecipeSuggestionRequest) (max_results : ℕ)
    (available : List String) :
    ∀ (cands solution : List String) (st : BTState),
      st.exploration_count + 1 ≤
        (backtrack_search recipes ingredients request max_results available
          cands solution st).exploration_count := by
  intro cands
  induction cands with
  | nil =>
    intro solution st
    simp only [backtrack_search]
    split
    · exact le_refl _
    · split <;> exact le_refl _
  | cons rid rest ih =>
    intro solution st
    simp only [backtrack_search]
    split
    · exact le_refl _
    · split
      · split <;> exact le_refl _
      · split
        · exact le_refl _
        · set st1 : BTState :=
            { st with exploration_count := st.exploration_count + 1 } with hst1
          set st2 :=
            (if is_recipe_viable recipes rid available request then
              backtrack_search recipes ingredients request max_results
                available rest (solution ++ [rid]) st1
            else st1) with hst2
          have hproj : st1.exploration_count = st.exploration_count + 1 := by
            rw [hst1]
          have h2 : st.exploration_count + 1 ≤ st2.exploration_count := by
            rw [hst2]
            split
            · have h4 := ih (solution ++ [rid]) st1
              omega
            · omega
          have h3 := ih solution st2
          omega

/-- Once the counter has reached the cap, a call only increments it once and
changes nothing else. -/
theorem backtrack_search_capped (recipes : List (String × Recipe))
    (ingredients : List (String × Ingredient))
    (request : RecipeSuggestionRequest) (max_results : ℕ)
    (available : List String) (cands solution : List String) (st : BTState)
    (h : st.max_explorations ≤ st.exploration_count) :
    backtrack_search recipes ingredients request max_results available cands
      solution st =
      { st with exploration_count := st.exploration_count + 1 } := by
  cases cands with
  | nil =>
    simp only [backtrack_search]
    rw [if_pos (by omega)]
  | cons rid rest =>
    simp only [backtrack_search]
    rw [if_pos (by omega)]

/-- The exploration counter never exceeds
`max_explorations + (number of remaining candidates) + 1`. -/
theorem backtrack_search_count_le (recipes : List (String × Recipe))
    (ingredients : List (String × Ingredient))
    (request : RecipeSuggestionRequest) (max_results : ℕ)
    (available : List String) :
    ∀ (cands solution : List String) (st : BTState),
      st.exploration_count < st.max_explorations →
      (backtrack_search recipes ingredients request max_results available
          cands solution st).exploration_count ≤
        st.max_explorations + cands.length + 1 := by
  intro cands
  induction cands with
  | nil =>
    intro solution st h
    simp only [backtrack_search]
    rw [if_neg (by omega)]
    split <;> simp <;> omega
  | cons rid rest ih =>
    intro solution st h
    have hmaxE := backtrack_search_max_explorations recipes ingredients request
      max_results available rest (solution ++ [rid])
      { st with exploration_count := st.exploration_count + 1 }
    simp only [backtrack_search, List.length_cons]
    rw [if_neg (by omega)]
    split
    · split <;> simp <;> omega
    · split
      · simp; omega
      · -- the two recursive branches
        set st1 : BTState :=
          { st with exploration_count := st.exploration_count + 1 } with hst1
        have hproj1 : st1.exploration_count = st.exploration_count + 1 := by
          rw [hst1]
        have hproj2 : st1.max_explorations = st.max_explorations := by
          rw [hst1]
        set st2 :=
          (if is_recipe_viable recipes rid available request then
            backtrack_search recipes ingredients request max_results available
              rest (solution ++ [rid]) st1
          else st1) with hst2
        have hAB : st2.exploration_count ≤ st.max_explorations + rest.length + 1 ∧
            st2.max_explorations = st.max_explorations := by
          rw [hst2]
          by_cases hv : is_recipe_viable recipes rid available request
          · rw [if_pos hv]
            refine ⟨?_, ?_⟩
            · rcases lt_or_ge st1.exploration_count st1.max_explorations with
                hlt | hge
              · have h5 := ih (solution ++ [rid]) st1 hlt
                omega
              · rw [backtrack_search_capped _ _ _ _ _ _ _ _ hge]
                dsimp only
                omega
            · rw [backtrack_search_max_explorations]
          · rw [if_neg hv]
            exact ⟨by omega, hproj2⟩
        obtain ⟨hA, hB⟩ := hAB
        rcases lt_or_ge st2.exploration_count st2.max_explorations with
          hlt | hge
        · have h6 := ih solution st2 hlt
          omega
        · rw [backtrack_search_capped _ _ _ _ _ _ _ _ hge]
          dsimp only
          omega

/-- Amended form of claim C2, upper-bound half: after `find_optimal_recipes`
the exploration counter is at most
`max_explorations + (number of filtered candidate recipes) + 1`
(the counter is incremented before the cap test, so it can overshoot the cap
by up to one increment per call stacked on the way down). -/
theorem find_optimal_recipes_count_le (recipes : List (String × Recipe))
    (ingredients : List (String × Ingredient))
    (request : RecipeSuggestionRequest) (max_results : ℕ) :
    (find_optimal_recipes recipes ingredients request max_results).2.exploration_count ≤
      10000 + (filter_recipes_by_constraints recipes request).length + 1 := by
  simp only [find_optimal_recipes]
  split
  · simp [initial_bt_state]
  · have h := backtrack_search_count_le recipes ingredients request max_results
      (normalize_ingredient_identifiers ingredients
        request.available_ingredients)
      ((filter_recipes_by_constraints recipes request).map (fun p => p.1))
      [] initial_bt_state (by simp [initial_bt_state])
    simpa [initial_bt_state] using h

/-- Size of the untruncated backtracking call tree: one call per node, two
children (include / exclude) while the solution is shorter than `max_results`
and candidates remain. -/
def btTree (max_results : ℕ) : ℕ → ℕ → ℕ
  | 0, _ => 1
  | d + 1, s =>
    if max_results ≤ s then 1
    else 1 + btTree max_results d (s + 1) + btTree max_results d s

theorem btTree_of_le (max_results d s : ℕ) (h : max_results ≤ s) :
    btTree max_results d s = 1 := by
  cases d with
  | zero => rfl
  | succ d => simp [btTree, h]

theorem btTree_two_one (d : ℕ) : btTree 2 d 1 = 2 * d + 1 := by
  induction d with
  | zero => rfl
  | succ d ih =>
    have h2 : btTree 2 d 2 = 1 := btTree_of_le 2 d 2 (le_refl 2)
    simp only [btTree]
    rw [if_neg (by omega), h2, ih]
    ring

theorem btTree_two_zero (d : ℕ) : btTree 2 d 0 = d * d + d + 1 := by
  induction d with
  | zero => rfl
  | succ d ih =>
    simp only [btTree]
    rw [if_neg (by omega), btTree_two_one, ih]
    ring

/-- A successful `dictGet` returns a binding of the list. -/
theorem dictGet_mem {β : Type} {d : List (String × β)} {k : String} {v : β}
    (h : dictGet d k = some v) : (k, v) ∈ d := by
  unfold dictGet at h
  cases hf : d.find? (fun p => p.1 = k) with
  | none => rw [hf] at h; simp at h
  | some p =>
    rw [hf] at h
    simp at h
    have hmem := List.mem_of_find?_eq_some hf
    have hkey := List.find?_some hf
    obtain ⟨a, b⟩ := p
    simp at hkey h
    subst hkey
    subst h
    exact hmem

/-- A key of the association list resolves. -/
theorem dictGet_isSome_of_key {β : Type} {d : List (String × β)} {k : String}
    (h : k ∈ d.map (fun p => p.1)) : (dictGet d k).isSome := by
  unfold dictGet
  rcases List.mem_map.1 h with ⟨p, hp, hk⟩
  have hs : (d.find? (fun q => q.1 = k)).isSome := by
    rw [List.find?_isSome]
    exact ⟨p, hp, by simp [hk]⟩
  cases hf : d.find? (fun q => q.1 = k) with
  | none => rw [hf] at hs; simp at hs
  | some q => simp

/-- If every match the backtracking matcher could create scores at most `0.1`,
`_evaluate_solution` never adds a match. -/
theorem evaluate_solution_fixed (recipes : List (String × Recipe))
    (ingredients : List (String × Ingredient))
    (request : RecipeSuggestionRequest) (available : List String)
    (he : ∀ rid m, create_recipe_match_bt recipes ingredients request
      available rid = some m → m.match_score ≤ 1/10) :
    ∀ (solution : List String) (best : List (RecipeMatch ℚ)),
      evaluate_solution recipes ingredients request available solution best =
        best := by
  intro solution
  induction solution with
  | nil => intro best; rfl
  | cons rid rest ih =>
    intro best
    unfold evaluate_solution
    simp only [List.foldl_cons]
    have hstep :
        (if (dictGet recipes rid).isSome then
          match create_recipe_match_bt recipes ingredients request available
            rid with
          | some m =>
            if m.match_score > 1/10 ∧
                rid ∉ best.map (fun b => b.recipe.id) then
              best ++ [m]
            else best
          | none => best
        else best) = best := by
      split
      · cases hc : create_recipe_match_bt recipes ingredients request
          available rid with
        | none => rfl
        | some m =>
          have hle := he rid m hc
          dsimp only
          rw [if_neg ?_]
          rintro ⟨h1, _⟩
          exact absurd hle (not_le.2 h1)
      · rfl
    rw [hstep]
    exact ih best

/-- Lower bound on the exploration counter: as long as every candidate is
viable, no match is ever retained (so the early-exit heuristic cannot fire)
and `max_results` is positive, the search performs `btTree` many calls or runs
into the exploration cap — in the latter case the counter still ends beyond
the cap. -/
theorem backtrack_search_count_lower (recipes : List (String × Recipe))
    (ingredients : List (String × Ingredient))
    (request : RecipeSuggestionRequest) (max_results : ℕ)
    (available : List String) (hmr : 0 < max_results)
    (he : ∀ rid m, create_recipe_match_bt recipes ingredients request
      available rid = some m → m.match_score ≤ 1/10) :
    ∀ (cands solution : List String) (st : BTState),
      (∀ rid ∈ cands, is_recipe_viable recipes rid available request) →
      st.best_matches = [] →
      (backtrack_search recipes ingredients request max_results available
          cands solution st).best_matches = [] ∧
      (backtrack_search recipes ingredients request max_results available
          cands solution st).max_explorations = st.max_explorations ∧
      min (st.max_explorations + 1)
          (st.exploration_count +
            btTree max_results cands.length solution.length) ≤
        (backtrack_search recipes ingredients request max_results available
          cands solution st).exploration_count := by
  intro cands
  induction cands with
  | nil =>
    intro solution st _ hb
    simp only [backtrack_search]
    split
    · exact ⟨hb, rfl, by simp only [btTree, List.length_nil]; omega⟩
    · rw [evaluate_solution_fixed recipes ingredients request available he]
      refine ⟨?_, ?_, ?_⟩
      · split <;> exact hb
      · split <;> rfl
      · simp only [btTree, List.length_nil]
        split <;> (dsimp only; omega)
  | cons rid rest ih =>
    intro solution st hv hb
    simp only [backtrack_search, List.length_cons]
    split
    · exact ⟨hb, rfl, by dsimp only; omega⟩
    · rename_i hcap
      split
      · -- base case: the solution is already full
        rename_i hfull
        rw [evaluate_solution_fixed recipes ingredients request available he]
        have hT : btTree max_results (rest.length + 1) solution.length = 1 :=
          btTree_of_le _ _ _ hfull
        rw [hT]
        refine ⟨?_, ?_, ?_⟩
        · split <;> exact hb
        · split <;> rfl
        · split <;> (dsimp only; omega)
      · rename_i hfull
        split
        · -- the early-exit heuristic cannot fire on an empty match list
          rename_i hearly
          rw [hb] at hearly
          simp only [List.length_nil] at hearly
          omega
        · set st1 : BTState :=
            { st with exploration_count := st.exploration_count + 1 } with hst1
          have hproj1 : st1.exploration_count = st.exploration_count + 1 := by
            rw [hst1]
          have hproj2 : st1.max_explorations = st.max_explorations := by
            rw [hst1]
          have hproj3 : st1.best_matches = st.best_matches := by
            rw [hst1]
          rw [if_pos (hv rid (List.mem_cons_self rid rest))]
          set stA :=
            backtrack_search recipes ingredients request max_results available
              rest (solution ++ [rid]) st1 with hstA
          have hA := ih (solution ++ [rid]) st1
            (fun r hr => hv r (List.mem_cons_of_mem rid hr))
            (by rw [hproj3, hb])
          rw [← hstA] at hA
          obtain ⟨hA1, hA2, hA3⟩ := hA
          have hB := ih solution stA
            (fun r hr => hv r (List.mem_cons_of_mem rid hr)) hA1
          obtain ⟨hB1, hB2, hB3⟩ := hB
          refine ⟨hB1, by rw [hB2, hA2, hproj2], ?_⟩
          rw [hproj1, hproj2] at hA3
          rw [hA2, hproj2] at hB3
          simp only [List.length_append, List.length_cons, List.length_nil,
            Nat.zero_add] at hA3
          rw [btTree]
          rw [if_neg hfull]
          omega

/-- The concrete recipe family used to overflow the exploration counter: 100
recipes, each requiring the single (unavailable) ingredient `"x"`. -/
def c2_recipe (i : ℕ) : Recipe :=
  { id := String.mk [Char.ofNat (48 + i / 10), Char.ofNat (48 + i % 10)]
    name := "candidate"
    cuisine := none
    meal_types := []
    difficulty := DifficultyLevel.intermediate
    prep_time_minutes := 5
    cook_time_minutes := 5
    ingredients := [⟨"x", 1, "g", false⟩]
    dietary_tags := []
    equipment_needed := []
    average_rating := none
    popularity_score := 0
    ingredient_complexity_score := none }

/-- A 100-recipe store (two-digit ids `"00"`–`"99"`). -/
def c2_store : List (String × Recipe) :=
  (List.range 100).map (fun i => (c2_recipe i |>.id, c2_recipe i))

/-- The C2 request: no constraints, empty pantry, explicit backtracking. -/
def c2_request : RecipeSuggestionRequest :=
  { available_ingredients := []
    dietary_preferences := []
    meal_type := none
    max_missing_ingredients := 3
    max_prep_time := none
    max_cook_time := none
    difficulty_level := none
    cuisine_preference := none
    exclude_ingredients := []
    algorithm_preference := some "backtracking" }

theorem c2_required (i : ℕ) : required_ids (c2_recipe i) = ["x"] := by
  simp [required_ids, c2_recipe]

theorem c2_optional (i : ℕ) : optional_ids (c2_recipe i) = [] := by
  simp [optional_ids, c2_recipe]

theorem c2_alls (i : ℕ) : all_ids (c2_recipe i) = ["x"] := by
  rw [all_ids, c2_required, c2_optional]
  simp

theorem c2_score (i : ℕ) :
    calculate_backtracking_score (c2_recipe i) [] ["x"] [] ["x"] c2_request =
      0 := by
  simp [calculate_backtracking_score, c2_recipe, c2_request, truthyInt,
    truthyStr, pyMin, pyMax]

theorem c2_he (rid : String) (m : RecipeMatch ℚ)
    (h : create_recipe_match_bt c2_store [] c2_request [] rid = some m) :
    m.match_score ≤ 1/10 := by
  unfold create_recipe_match_bt at h
  cases hd : dictGet c2_store rid with
  | none => rw [hd] at h; simp at h
  | some r =>
    rw [hd] at h
    have hm := dictGet_mem hd
    simp only [c2_store, List.mem_map] at hm
    obtain ⟨i, hi, heq⟩ := hm
    have hr2 : r = c2_recipe i := by
      have := congrArg Prod.snd heq
      simpa using this.symm
    subst hr2
    simp only [c2_required, c2_alls] at h
    have hf1 : (["x"] : List String).filter (fun i => i ∈ ([] : List String)) =
        [] := by simp
    have hf2 : (["x"] : List String).filter
        (fun i => i ∉ ([] : List String)) = ["x"] := by simp
    rw [hf1, hf2] at h
    have hms := congrArg (fun o => o.map (fun mm => mm.match_score)) h
    simp at hms
    rw [← hms, c2_score]
    norm_num

theorem c2_hv (rid : String)
    (hr : rid ∈ c2_store.map (fun p => p.1)) :
    is_recipe_viable c2_store rid [] c2_request := by
  have hs := dictGet_isSome_of_key (d := c2_store) hr
  cases hd : dictGet c2_store rid with
  | none => rw [hd] at hs; simp at hs
  | some r =>
    have hm := dictGet_mem hd
    simp only [c2_store, List.mem_map] at hm
    obtain ⟨i, hi, heq⟩ := hm
    have hr2 : r = c2_recipe i := by
      have := congrArg Prod.snd heq
      simpa using this.symm
    subst hr2
    simp only [is_recipe_viable, hd]
    refine ⟨?_, ?_, ?_⟩
    · intro hne; simp [c2_request] at hne
    · intro hne; simp [c2_request] at hne
    · rw [c2_required]
      simp [c2_request]

theorem c2_filter_all :
    filter_recipes_by_constraints c2_store c2_request = c2_store := by
  rw [filter_recipes_by_constraints, List.filter_eq_self]
  intro p _
  simp [c2_request, truthyInt, truthyStr]

/-- Counterexample to claim C2 as stated: on a store of 100 unconstrained
candidate recipes (none of which produces a match), a single
`find_optimal_recipes` run leaves the exploration counter strictly above
`max_explorations = 10000`. -/
theorem c2_counterexample :
    (find_optimal_recipes c2_store [] c2_request 2).2.exploration_count >
      10000 := by
  have hne : c2_store ≠ [] := by simp [c2_store, c2_recipe]
  have hlen : (c2_store.map (fun p => p.1)).length = 100 := by
    simp [c2_store]
  have hlow := backtrack_search_count_lower c2_store [] c2_request 2
    (normalize_ingredient_identifiers [] c2_request.available_ingredients)
    (by norm_num) (fun rid m h => c2_he rid m h)
    (c2_store.map (fun p => p.1)) [] initial_bt_state
    (fun rid hr => c2_hv rid hr) (by rfl)
  obtain ⟨_, _, hcount⟩ := hlow
  have hT : btTree 2 (c2_store.map (fun p => p.1)).length
      (List.length ([] : List String)) = 10101 := by
    rw [hlen]
    simp only [List.length_nil]
    rw [btTree_two_zero]
  simp only [find_optimal_recipes, c2_filter_all]
  rw [if_neg hne]
  dsimp only
  rw [hT] at hcount
  simp only [initial_bt_state] at hcount ⊢
  omega

/-! ### Ingredient relationship graph (`algorithms/graph_algorithm.py`)

Only the two node dictionaries (`ingredient_nodes`, `recipe_nodes`) are
modelled: the queries the claims are about (`calculate_flavor_similarity`,
`find_ingredient_substitutes`, `calculate_recipe_match_score`,
`recommend_recipes_graph`) read nothing else — the NetworkX edge structure is
used only by the centrality / clustering / statistics helpers, which no claim
mentions.  Cosine similarity involves square roots, so this module lives in
`ℝ` (`noncomputable`). -/

/-- The two node dictionaries of `IngredientGraph`. -/
structure IngredientGraph where
  ingredient_nodes : List (String × Ingredient)
  recipe_nodes : List (String × Recipe)

/-- Euclidean dot product of two six-axis flavor profiles (exact, in `ℚ`). -/
def dot_profile (p q : FlavorProfile) : ℚ :=
  p.sweetness * q.sweetness + p.saltiness * q.saltiness +
    p.sourness * q.sourness + p.bitterness * q.bitterness +
    p.umami * q.umami + p.spiciness * q.spiciness

/-- Cosine similarity of two flavor vectors, as computed by
`sklearn.metrics.pairwise.cosine_similarity` on the two 6-dimensional rows.
sklearn replaces a zero norm by 1 during normalization, so a zero flavor
vector yields similarity `0`; this coincides with Lean's `x / 0 = 0`
convention, so no special case is needed. -/
noncomputable def cosine_similarity (p q : FlavorProfile) : ℝ :=
  ((dot_profile p q : ℚ) : ℝ) /
    (Real.sqrt ((dot_profile p p : ℚ) : ℝ) *
      Real.sqrt ((dot_profile q q : ℚ) : ℝ))

/-- `IngredientGraph.calculate_flavor_similarity`: `0` when either id is
unknown, otherwise the cosine similarity clamped to be non-negative
(`max(0, similarity)`). -/
noncomputable def calculate_flavor_similarity (g : IngredientGraph)
    (ingredient1_id ingredient2_id : String) : ℝ :=
  match dictGet g.ingredient_nodes ingredient1_id,
      dictGet g.ingredient_nodes ingredient2_id with
  | some i1, some i2 =>
    pyMax 0 (cosine_similarity i1.flavor_profile i2.flavor_profile)
  | _, _ => 0

/-- The body of the availability-scan loop of `find_ingredient_substitutes`:
for one available id, the `(id, combined_score)` entry it contributes, if any
(`none` when the id is not an ingredient node or the combined score is not
above `0.3`). -/
noncomputable def scan_available_candidate (g : IngredientGraph)
    (target : Ingredient) (ingredient_id available_id : String) :
    Option (String × ℝ) :=
  match dictGet g.ingredient_nodes available_id with
  | none => none
  | some available_ing =>
    let flavor_similarity := calculate_flavor_similarity g ingredient_id
      available_id
    let combined0 :=
      if target.category = available_ing.category then
        flavor_similarity * (12/10)
      else flavor_similarity
    let combined1 :=
      if ¬ (target.dietary_tags ⊆ available_ing.dietary_tags) then
        combined0 * (7/10)
      else combined0
    if combined1 > 3/10 then some (available_id, combined1) else none

/-- `IngredientGraph.find_ingredient_substitutes`: collect the available
declared substitutes (scored by flavor similarity), then scan every available
ingredient (same-category ×1.2 bonus, ×0.7 penalty when the target's dietary
tags are not a subset of the candidate's, kept above `0.3`), sort descending
by score and keep the top 5. -/
noncomputable def find_ingredient_substitutes (g : IngredientGraph)
    (ingredient_id : String) (available_ingredients : List String) :
    List (String × ℝ) :=
  match dictGet g.ingredient_nodes ingredient_id with
  | none => []
  | some target =>
    let subs1 := target.common_substitutes.foldl (fun acc substitute_id =>
      if substitute_id ∈ available_ingredients then
        acc ++ [(substitute_id,
          calculate_flavor_similarity g ingredient_id substitute_id)]
      else acc) []
    let subs2 := available_ingredients.foldl (fun acc available_id =>
      acc ++ (scan_available_candidate g target ingredient_id
        available_id).toList) subs1
    (sortDescBy (fun p => p.2) subs2).take 5

/-- Claim C6 rendered literally: the declared available substitutes are
scored by flavor similarity, and every OTHER available ingredient — read as
excluding the declared substitutes — is scored by the adjusted similarity and
thresholded at `0.3`. -/
noncomputable def find_ingredient_substitutes_claim (g : IngredientGraph)
    (ingredient_id : String) (available_ingredients : List String) :
    List (String × ℝ) :=
  match dictGet g.ingredient_nodes ingredient_id with
  | none => []
  | some target =>
    let declared := (target.common_substitutes.filter
      (fun s => s ∈ available_ingredients)).map
      (fun s => (s, calculate_flavor_similarity g ingredient_id s))
    let others := (available_ingredients.filter
      (fun a => a ∉ target.common_substitutes)).filterMap
      (scan_available_candidate g target ingredient_id)
    (sortDescBy (fun p => p.2) (declared ++ others)).take 5

/-- Amended reading of claim C6: the scan runs over every available
ingredient, declared substitutes and the target included, so an id can occur
twice with different scores. -/
noncomputable def find_ingredient_substitutes_amended (g : IngredientGraph)
    (ingredient_id : String) (available_ingredients : List String) :
    List (String × ℝ) :=
  match dictGet g.ingredient_nodes ingredient_id with
  | none => []
  | some target =>
    let declared := (target.common_substitutes.filter
      (fun s => s ∈ available_ingredients)).map
      (fun s => (s, calculate_flavor_similarity g ingredient_id s))
    let others := available_ingredients.filterMap
      (scan_available_candidate g target ingredient_id)
    (sortDescBy (fun p => p.2) (declared ++ others)).take 5

/-- The score/analysis record returned by `calculate_recipe_match_score`. -/
structure GraphMatchAnalysis where
  score : ℝ
  direct_matches : List String
  completely_missing : List String
  substitutable : List (String × String × ℝ)
  optional_matches : List String

/-- `IngredientGraph.calculate_recipe_match_score`: direct required matches
plus 80%-weighted best-substitute scores, optional bonus (≤ 0.1), penalty for
ingredients missing even after substitution, clamped to `[0,1]`. -/
noncomputable def calculate_recipe_match_score (g : IngredientGraph)
    (recipe_id : String) (available_ingredients : List String) :
    GraphMatchAnalysis :=
  match dictGet g.recipe_nodes recipe_id with
  | none =>
    { score := 0, direct_matches := [], completely_missing := [],
      substitutable := [], optional_matches := [] }
  | some recipe =>
    let required := required_ids recipe
    let optionals := optional_ids recipe
    let alls := all_ids recipe
    let direct_matches := alls.filter (fun i => i ∈ available_ingredients)
    let direct_required_matches :=
      required.filter (fun i => i ∈ available_ingredients)
    let missing_required :=
      required.filter (fun i => i ∉ available_ingredients)
    let substitutable := missing_required.foldl (fun acc missing_id =>
      acc ++ ((find_ingredient_substitutes g missing_id
        available_ingredients).head?.map
          (fun best => (missing_id, best.1, best.2))).toList) []
    let total_required := required.length
    let base_score : ℝ :=
      if total_required = 0 then 1
      else (direct_required_matches.length : ℝ) / (total_required : ℝ) +
        (substitutable.map (fun t => t.2.2)).sum / (total_required : ℝ) *
          (8/10)
    let optional_matches := optionals.filter
      (fun i => i ∈ available_ingredients)
    let optional_bonus : ℝ := (optional_matches.length : ℝ) /
      ((max optionals.length 1 : ℕ) : ℝ) * (1/10)
    let completely_missing := missing_required.filter
      (fun i => i ∉ substitutable.map (fun t => t.1))
    let missing_penalty : ℝ := (completely_missing.length : ℝ) /
      ((max total_required 1 : ℕ) : ℝ) * (3/10)
    let final_score := pyMin 1 (pyMax 0
      (base_score + optional_bonus - missing_penalty))
    { score := final_score
      direct_matches := direct_matches
      completely_missing := completely_missing
      substitutable := substitutable
      optional_matches := optional_matches }

/-- The scored-candidate list built by `recommend_recipes_graph`: every
recipe node whose match score is above `0.1`, in store insertion order. -/
noncomputable def recipe_scores_graph (g : IngredientGraph)
    (available_ingredients : List String) :
    List (String × GraphMatchAnalysis) :=
  g.recipe_nodes.foldl (fun acc p =>
    let result := calculate_recipe_match_score g p.1 available_ingredients
    if result.score > 1/10 then acc ++ [(p.1, result)] else acc) []

/-- The scored candidates sorted descending by score (stable). -/
noncomputable def recommend_sorted (g : IngredientGraph)
    (available_ingredients : List String) :
    List (String × GraphMatchAnalysis) :=
  sortDescBy (fun p => p.2.score) (recipe_scores_graph g available_ingredients)

/-- Placeholder recipe for the (unreachable) case where a scored recipe id is
no longer a recipe node; Python indexes `self.recipe_nodes[recipe_id]`
directly, which is always present for ids produced by the scoring loop. -/
def placeholder_recipe : Recipe :=
  { id := "", name := "", cuisine := none, meal_types := [],
    difficulty := DifficultyLevel.intermediate, prep_time_minutes := 0,
    cook_time_minutes := 0, ingredients := [], dietary_tags := [],
    equipment_needed := [], average_rating := none, popularity_score := 0,
    ingredient_complexity_score := none }

/-- Conversion of one scored candidate into a `RecipeMatch`
(confidence = `min(score * 1.2, 1.0)`). -/
noncomputable def graph_match_of (g : IngredientGraph)
    (p : String × GraphMatchAnalysis) : RecipeMatch ℝ :=
  { recipe := (dictGet g.recipe_nodes p.1).getD placeholder_recipe
    match_score := p.2.score
    available_ingredients := p.2.direct_matches
    missing_ingredients := p.2.completely_missing
    substitutable_ingredients := p.2.substitutable.map (fun t => t.1)
    confidence_score := pyMin (p.2.score * (12/10)) 1
    algorithm_used := "graph_theory" }

/-- `IngredientGraph.recommend_recipes_graph`: score, filter above `0.1`,
sort descending, truncate, convert. -/
noncomputable def recommend_recipes_graph (g : IngredientGraph)
    (available_ingredients : List String) (max_results : ℕ) :
    List (RecipeMatch ℝ) :=
  ((recommend_sorted g available_ingredients).take max_results).map
    (graph_match_of g)

/-! ### Properties of the flavor similarity -/

theorem dot_profile_comm (p q : FlavorProfile) :
    dot_profile p q = dot_profile q p := by
  unfold dot_profile; ring

theorem dot_profile_self_nonneg (p : FlavorProfile) : 0 ≤ dot_profile p p := by
  unfold dot_profile
  nlinarith [mul_self_nonneg p.sweetness, mul_self_nonneg p.saltiness,
    mul_self_nonneg p.sourness, mul_self_nonneg p.bitterness,
    mul_self_nonneg p.umami, mul_self_nonneg p.spiciness]

/-- The flavor profile as a real 6-vector (for the Cauchy–Schwarz step). -/
noncomputable def flavor_vec (p : FlavorProfile) : Fin 6 → ℝ :=
  ![(p.sweetness : ℝ), (p.saltiness : ℝ), (p.sourness : ℝ),
    (p.bitterness : ℝ), (p.umami : ℝ), (p.spiciness : ℝ)]

theorem flavor_vec_eval (r : FlavorProfile) :
    flavor_vec r 0 = (r.sweetness : ℝ) ∧ flavor_vec r 1 = (r.saltiness : ℝ) ∧
    flavor_vec r 2 = (r.sourness : ℝ) ∧ flavor_vec r 3 = (r.bitterness : ℝ) ∧
    flavor_vec r 4 = (r.umami : ℝ) ∧ flavor_vec r 5 = (r.spiciness : ℝ) :=
  ⟨rfl, rfl, rfl, rfl, rfl, rfl⟩

theorem dot_cast_eq_sum (p q : FlavorProfile) :
    ((dot_profile p q : ℚ) : ℝ) = ∑ i, flavor_vec p i * flavor_vec q i := by
  obtain ⟨hp0, hp1, hp2, hp3, hp4, hp5⟩ := flavor_vec_eval p
  obtain ⟨hq0, hq1, hq2, hq3, hq4, hq5⟩ := flavor_vec_eval q
  rw [Fin.sum_univ_six, hp0, hp1, hp2, hp3, hp4, hp5, hq0, hq1, hq2, hq3,
    hq4, hq5, dot_profile]
  push_cast
  ring

theorem cosine_similarity_le_one (p q : FlavorProfile) :
    cosine_similarity p q ≤ 1 := by
  unfold cosine_similarity
  have h1 : 0 ≤ Real.sqrt ((dot_profile p p : ℚ) : ℝ) := Real.sqrt_nonneg _
  have h2 : 0 ≤ Real.sqrt ((dot_profile q q : ℚ) : ℝ) := Real.sqrt_nonneg _
  rcases eq_or_lt_of_le (mul_nonneg h1 h2) with hz | hpos
  · rw [← hz]
    simp
  · rw [div_le_one hpos]
    have hcs := Real.sum_mul_le_sqrt_mul_sqrt Finset.univ (flavor_vec p)
      (flavor_vec q)
    have e1 : ∑ i, flavor_vec p i ^ 2 = ((dot_profile p p : ℚ) : ℝ) := by
      rw [dot_cast_eq_sum p p]
      simp [pow_two]
    have e2 : ∑ i, flavor_vec q i ^ 2 = ((dot_profile q q : ℚ) : ℝ) := by
      rw [dot_cast_eq_sum q q]
      simp [pow_two]
    rw [e1, e2] at hcs
    calc ((dot_profile p q : ℚ) : ℝ)
        = ∑ i, flavor_vec p i * flavor_vec q i := dot_cast_eq_sum p q
      _ ≤ _ := hcs

theorem cosine_similarity_comm (p q : FlavorProfile) :
    cosine_similarity p q = cosine_similarity q p := by
  unfold cosine_similarity
  rw [dot_profile_comm p q, mul_comm]

theorem cosine_similarity_self (p : FlavorProfile)
    (h : dot_profile p p ≠ 0) : cosine_similarity p p = 1 := by
  unfold cosine_similarity
  have hcast : (0 : ℝ) ≤ ((dot_profile p p : ℚ) : ℝ) := by
    exact_mod_cast dot_profile_self_nonneg p
  rw [Real.mul_self_sqrt hcast]
  exact div_self (by exact_mod_cast h)

theorem calculate_flavor_similarity_nonneg (g : IngredientGraph)
    (a b : String) : 0 ≤ calculate_flavor_similarity g a b := by
  unfold calculate_flavor_similarity
  cases h1 : dictGet g.ingredient_nodes a <;>
    cases h2 : dictGet g.ingredient_nodes b <;> simp
  rw [pyMax_eq_max]
  exact le_max_left 0 _

theorem calculate_flavor_similarity_le_one (g : IngredientGraph)
    (a b : String) : calculate_flavor_similarity g a b ≤ 1 := by
  unfold calculate_flavor_similarity
  cases h1 : dictGet g.ingredient_nodes a <;>
    cases h2 : dictGet g.ingredient_nodes b <;> simp
  rw [pyMax_eq_max]
  exact max_le (by norm_num) (cosine_similarity_le_one _ _)

theorem calculate_flavor_similarity_comm (g : IngredientGraph)
    (a b : String) :
    calculate_flavor_similarity g a b = calculate_flavor_similarity g b a := by
  unfold calculate_flavor_similarity
  cases h1 : dictGet g.ingredient_nodes a <;>
    cases h2 : dictGet g.ingredient_nodes b <;> simp
  rw [cosine_similarity_comm]

theorem calculate_flavor_similarity_self (g : IngredientGraph) (a : String)
    (ing : Ingredient) (ha : dictGet g.ingredient_nodes a = some ing)
    (hnz : dot_profile ing.flavor_profile ing.flavor_profile ≠ 0) :
    calculate_flavor_similarity g a a = 1 := by
  unfold calculate_flavor_similarity
  rw [ha]
  simp only
  rw [cosine_similarity_self ing.flavor_profile hnz]
  simp [pyMax]

/-- Amended form of claim C3: flavor similarity is symmetric for all
arguments, and the self-similarity of a stored ingredient is `1.0` provided
its flavor vector is nonzero (equivalently, its self-dot-product is nonzero).
For the all-zero flavor vector the self-similarity is `0`, not `1` — see the
counterexample. -/
theorem c3_amended (g : IngredientGraph) :
    (∀ a b, calculate_flavor_similarity g a b =
      calculate_flavor_similarity g b a) ∧
    (∀ a ing, dictGet g.ingredient_nodes a = some ing →
      dot_profile ing.flavor_profile ing.flavor_profile ≠ 0 →
      calculate_flavor_similarity g a a = 1) :=
  ⟨fun a b => calculate_flavor_similarity_comm g a b,
    fun a ing ha hnz => calculate_flavor_similarity_self g a ing ha hnz⟩

/-- Ingredient with an all-zero flavor profile (think: water). -/
def c3_water : Ingredient :=
  { id := "water", name := "Water", category := IngredientCategory.liquid,
    aliases := [], flavor_profile := ⟨0, 0, 0, 0, 0, 0⟩,
    common_substitutes := [], dietary_tags := [], cost_level := none }

def c3_water_id : String := "water"

def c3_graph : IngredientGraph :=
  { ingredient_nodes := [(c3_water_id, c3_water)], recipe_nodes := [] }

/-- Ingredient with a nonzero flavor profile, for the C3 witness. -/
def c3_tomato : Ingredient :=
  { id := "tomato", name := "Tomato", category := IngredientCategory.vegetable,
    aliases := [], flavor_profile := ⟨6, 1, 4, 1, 7, 0⟩,
    common_substitutes := [], dietary_tags := [], cost_level := none }

def c3_tomato_id : String := "tomato"

def c3_graph2 : IngredientGraph :=
  { ingredient_nodes := [(c3_tomato_id, c3_tomato)], recipe_nodes := [] }

/-- Counterexample to claim C3 as stated: for an ingredient present in the
store whose flavor vector is all zero, the self-similarity is `0` (sklearn
leaves zero-norm rows at zero), not `1.0`. -/
theorem c3_counterexample :
    calculate_flavor_similarity c3_graph c3_water_id c3_water_id = 0 := by
  have hd : dictGet c3_graph.ingredient_nodes c3_water_id = some c3_water := by
    simp [c3_graph, dictGet]
  unfold calculate_flavor_similarity
  rw [hd]
  simp only
  have hz : dot_profile c3_water.flavor_profile c3_water.flavor_profile = 0 := by
    norm_num [dot_profile, c3_water]
  unfold cosine_similarity
  rw [hz]
  norm_num [pyMax]

theorem c3_witness :
    dictGet c3_graph2.ingredient_nodes c3_tomato_id = some c3_tomato ∧
    dot_profile c3_tomato.flavor_profile c3_tomato.flavor_profile ≠ 0 ∧
    calculate_flavor_similarity c3_graph2 c3_tomato_id c3_water_id =
      calculate_flavor_similarity c3_graph2 c3_water_id c3_tomato_id ∧
    calculate_flavor_similarity c3_graph2 c3_tomato_id c3_tomato_id = 1 := by
  have h1 : dictGet c3_graph2.ingredient_nodes c3_tomato_id = some c3_tomato := by
    simp [c3_graph2, dictGet]
  have h2 : dot_profile c3_tomato.flavor_profile c3_tomato.flavor_profile ≠ 0 := by
    norm_num [dot_profile, c3_tomato]
  exact ⟨h1, h2, (c3_amended c3_graph2).1 c3_tomato_id c3_water_id,
    (c3_amended c3_graph2).2 c3_tomato_id c3_tomato h1 h2⟩

/-! ### Claim C10: the target ingredient substitutes for itself -/

/-- Ingredient for the C10 scenario: nonzero flavor vector, no declared
substitutes, no dietary tags. -/
def c10_ing : Ingredient :=
  { id := "t", name := "Target", category := IngredientCategory.vegetable,
    aliases := [], flavor_profile := ⟨1, 0, 0, 0, 0, 0⟩,
    common_substitutes := [], dietary_tags := [], cost_level := none }

def c10_id : String := "t"

def c10_graph : IngredientGraph :=
  { ingredient_nodes := [(c10_id, c10_ing)], recipe_nodes := [] }

theorem c10_lookup : dictGet c10_graph.ingredient_nodes c10_id = some c10_ing := by
  simp [c10_graph, dictGet]

theorem c10_sim : calculate_flavor_similarity c10_graph c10_id c10_id = 1 :=
  calculate_flavor_similarity_self c10_graph c10_id c10_ing c10_lookup
    (by norm_num [dot_profile, c10_ing])

/-- Claim C10, confirmed on a concrete store: when the target ingredient is
itself in the available set, the availability scan does not exclude it; with
flavor self-similarity `1` and the same-category ×1.2 bonus it scores `1.2 >
0.3` and is returned as its own substitute. -/
theorem c10_theorem :
    find_ingredient_substitutes c10_graph c10_id [c10_id] =
      [(c10_id, (12/10 : ℝ))] := by
  unfold find_ingredient_substitutes
  rw [c10_lookup]
  simp only
  have hscan : scan_available_candidate c10_graph c10_ing c10_id c10_id =
      some (c10_id, (12/10 : ℝ)) := by
    unfold scan_available_candidate
    rw [c10_lookup]
    simp only
    rw [c10_sim]
    have hsub : c10_ing.dietary_tags ⊆ c10_ing.dietary_tags := fun x hx => hx
    simp only [hsub, not_true, if_false, if_true, eq_self_iff_true]
    norm_num
  have hsubs1 : (c10_ing.common_substitutes.foldl
      (fun acc substitute_id =>
        if substitute_id ∈ [c10_id] then
          acc ++ [(substitute_id,
            calculate_flavor_similarity c10_graph c10_id substitute_id)]
        else acc) []) = ([] : List (String × ℝ)) := rfl
  rw [hsubs1]
  simp only [List.foldl_cons, List.foldl_nil, hscan, Option.toList_some,
    List.nil_append]
  simp [sortDescBy, List.insertionSort]

/-! ### Claim C6: shape of `find_ingredient_substitutes` -/

theorem foldl_append_if {α β : Type} (P : α → Prop) [DecidablePred P]
    (f : α → β) :
    ∀ (l : List α) (init : List β),
      l.foldl (fun acc x => if P x then acc ++ [f x] else acc) init =
        init ++ (l.filter (fun x => P x)).map f := by
  intro l
  induction l with
  | nil => intro init; simp
  | cons a t ih =>
    intro init
    by_cases hp : P a <;>
      simp [List.foldl_cons, List.filter_cons, hp, ih]

theorem foldl_append_toList {α β : Type} (f : α → Option β) :
    ∀ (l : List α) (init : List β),
      l.foldl (fun acc x => acc ++ (f x).toList) init =
        init ++ l.filterMap f := by
  intro l
  induction l with
  | nil => intro init; simp
  | cons a t ih =>
    intro init
    cases hf : f a <;>
      simp [List.foldl_cons, List.filterMap_cons, hf, ih]

theorem sortDescBy_pairwise {α β : Type} [LinearOrder β] (key : α → β)
    (l : List α) :
    List.Pairwise (fun a b => key b ≤ key a) (sortDescBy key l) :=
  List.sorted_insertionSort (descBy key) l

theorem sortDescBy_perm {α β : Type} [LinearOrder β] (key : α → β)
    (l : List α) : List.Perm (sortDescBy key l) l :=
  List.perm_insertionSort (descBy key) l

theorem sortDescBy_pair_sublist {α β : Type} [LinearOrder β] (key : α → β)
    {x y : α} {l : List α} (hxy : key y ≤ key x)
    (h : List.Sublist [x, y] l) :
    List.Sublist [x, y] (sortDescBy key l) :=
  List.pair_sublist_insertionSort hxy h

/-- Amended form of claim C6: the result equals the take-5 of the descending
stable sort of the declared-available substitutes (scored by flavor
similarity) together with the scan of EVERY available ingredient — declared
substitutes and the target itself included, so an id can occur twice — scored
by the adjusted similarity and kept above `0.3`; it has at most 5 entries and
is ordered descending by score. -/
theorem c6_amended (g : IngredientGraph) (ingredient_id : String)
    (available_ingredients : List String) :
    find_ingredient_substitutes g ingredient_id available_ingredients =
      find_ingredient_substitutes_amended g ingredient_id
        available_ingredients ∧
    (find_ingredient_substitutes g ingredient_id
      available_ingredients).length ≤ 5 ∧
    List.Pairwise (fun a b => b.2 ≤ a.2)
      (find_ingredient_substitutes g ingredient_id available_ingredients) := by
  refine ⟨?_, ?_, ?_⟩
  · unfold find_ingredient_substitutes find_ingredient_substitutes_amended
    cases hd : dictGet g.ingredient_nodes ingredient_id with
    | none => rfl
    | some target =>
      simp only
      rw [foldl_append_if (fun s => s ∈ available_ingredients)
        (fun s => (s, calculate_flavor_similarity g ingredient_id s)),
        foldl_append_toList (scan_available_candidate g target ingredient_id),
        List.nil_append]
  · unfold find_ingredient_substitutes
    cases hd : dictGet g.ingredient_nodes ingredient_id with
    | none => simp
    | some target =>
      simp only
      rw [List.length_take]
      exact min_le_left 5 _
  · unfold find_ingredient_substitutes
    cases hd : dictGet g.ingredient_nodes ingredient_id with
    | none => simp
    | some target =>
      simp only
      refine List.Pairwise.sublist (List.take_sublist 5 _) ?_
      exact sortDescBy_pairwise (fun p : String × ℝ => p.2) _

/-- Target ingredient of the C6 counterexample: declares `"s6"` as a
substitute. -/
def c6_target : Ingredient :=
  { id := "t6", name := "TargetSix", category := IngredientCategory.vegetable,
    aliases := [], flavor_profile := ⟨1, 0, 0, 0, 0, 0⟩,
    common_substitutes := ["s6"], dietary_tags := [], cost_level := none }

/-- Declared substitute with the same category and flavor profile. -/
def c6_sub : Ingredient :=
  { id := "s6", name := "SubSix", category := IngredientCategory.vegetable,
    aliases := [], flavor_profile := ⟨1, 0, 0, 0, 0, 0⟩,
    common_substitutes := [], dietary_tags := [], cost_level := none }

def c6_tid : String := "t6"

def c6_sid : String := "s6"

def c6_graph : IngredientGraph :=
  { ingredient_nodes := [(c6_tid, c6_target), (c6_sid, c6_sub)],
    recipe_nodes := [] }

theorem c6_lookup_t : dictGet c6_graph.ingredient_nodes c6_tid =
    some c6_target := by
  simp [c6_graph, dictGet, c6_tid, c6_sid]

theorem c6_lookup_s : dictGet c6_graph.ingredient_nodes c6_sid =
    some c6_sub := by
  simp [c6_graph, dictGet, c6_tid, c6_sid]

theorem c6_sim_ts : calculate_flavor_similarity c6_graph c6_tid c6_sid = 1 := by
  unfold calculate_flavor_similarity
  rw [c6_lookup_t, c6_lookup_s]
  simp only
  have hpe : c6_target.flavor_profile = c6_sub.flavor_profile := rfl
  rw [hpe, cosine_similarity_self c6_sub.flavor_profile
    (by norm_num [dot_profile, c6_sub])]
  simp [pyMax]

theorem c6_scan :
    scan_available_candidate c6_graph c6_target c6_tid c6_sid =
      some (c6_sid, (12/10 : ℝ)) := by
  unfold scan_available_candidate
  rw [c6_lookup_s]
  simp only
  rw [c6_sim_ts]
  have hcat : c6_target.category = c6_sub.category := rfl
  have hsub : c6_target.dietary_tags ⊆ c6_sub.dietary_tags := by
    simp [c6_target, c6_sub]
  simp only [hcat, hsub, not_true, if_false, if_true, eq_self_iff_true]
  norm_num

/-- Counterexample to claim C6 as stated: with `"s6"` both declared as a
substitute of `"t6"` and available, the availability scan re-scores it, so
the code returns it twice — once with the adjusted score `1.2`, which is not
its flavor similarity to the target — whereas the claim's reading ("every
OTHER available ingredient") yields a single entry scored by flavor
similarity. -/
theorem c6_counterexample :
    find_ingredient_substitutes c6_graph c6_tid [c6_sid] =
      [(c6_sid, (12/10 : ℝ)), (c6_sid, 1)] ∧
    find_ingredient_substitutes_claim c6_graph c6_tid [c6_sid] =
      [(c6_sid, (1 : ℝ))] ∧
    find_ingredient_substitutes c6_graph c6_tid [c6_sid] ≠
      find_ingredient_substitutes_claim c6_graph c6_tid [c6_sid] := by
  have hcode : find_ingredient_substitutes c6_graph c6_tid [c6_sid] =
      [(c6_sid, (12/10 : ℝ)), (c6_sid, 1)] := by
    unfold find_ingredient_substitutes
    rw [c6_lookup_t]
    simp only
    have hsubs1 : (c6_target.common_substitutes.foldl
        (fun acc substitute_id =>
          if substitute_id ∈ [c6_sid] then
            acc ++ [(substitute_id,
              calculate_flavor_similarity c6_graph c6_tid substitute_id)]
          else acc) []) = [(c6_sid, (1 : ℝ))] := by
      have hmem : c6_target.common_substitutes = [c6_sid] := rfl
      rw [hmem]
      simp [c6_sim_ts]
    rw [hsubs1]
    simp only [List.foldl_cons, List.foldl_nil, c6_scan, Option.toList_some,
      List.singleton_append]
    have hsort : sortDescBy (fun p => p.2)
        [(c6_sid, (1 : ℝ)), (c6_sid, (12/10 : ℝ))] =
        [(c6_sid, (12/10 : ℝ)), (c6_sid, 1)] := by
      unfold sortDescBy
      simp only [List.insertionSort, List.orderedInsert]
      rw [if_neg (by unfold descBy; norm_num)]
    rw [hsort]
    rfl
  have hclaim : find_ingredient_substitutes_claim c6_graph c6_tid [c6_sid] =
      [(c6_sid, (1 : ℝ))] := by
    unfold find_ingredient_substitutes_claim
    rw [c6_lookup_t]
    simp only
    have hdecl : (c6_target.common_substitutes.filter
        (fun s => s ∈ [c6_sid])).map
        (fun s => (s, calculate_flavor_similarity c6_graph c6_tid s)) =
        [(c6_sid, (1 : ℝ))] := by
      have hmem : c6_target.common_substitutes = [c6_sid] := rfl
      rw [hmem]
      simp [c6_sim_ts]
    have hothers : (([c6_sid].filter
        (fun a => a ∉ c6_target.common_substitutes)).filterMap
        (scan_available_candidate c6_graph c6_target c6_tid)) = [] := by
      have hmem : c6_target.common_substitutes = [c6_sid] := rfl
      rw [hmem]
      simp
    rw [hdecl, hothers, List.append_nil]
    unfold sortDescBy
    simp [List.insertionSort]
  refine ⟨hcode, hclaim, ?_⟩
  rw [hcode, hclaim]
  simp

/-! ### Claim C8: shape of `recommend_recipes_graph` -/

/-- Well-formedness of a recipe dict as maintained by the service
(`self.recipes[recipe.id] = recipe`): keys are unique and each value's `id`
field is its key. -/
def RecipeStoreWF (l : List (String × Recipe)) : Prop :=
  (l.map (fun p => p.1)).Nodup ∧ ∀ p ∈ l, p.2.id = p.1

instance (l : List (String × Recipe)) : Decidable (RecipeStoreWF l) :=
  inferInstanceAs (Decidable (_ ∧ _))

/-- Under unique keys, a binding of the list is what `dictGet` returns. -/
theorem dictGet_eq_of_mem_nodup {β : Type} {l : List (String × β)}
    {k : String} {v : β} (hnd : (l.map (fun p => p.1)).Nodup)
    (hmem : (k, v) ∈ l) : dictGet l k = some v := by
  induction l with
  | nil => cases hmem
  | cons a t ih =>
    simp only [List.map_cons, List.nodup_cons] at hnd
    rcases List.mem_cons.1 hmem with heq | ht
    · subst heq
      simp [dictGet]
    · have hkt : k ∈ t.map (fun p => p.1) :=
        List.mem_map.2 ⟨(k, v), ht, rfl⟩
      have hne : a.1 ≠ k := by
        intro he
        exact hnd.1 (he ▸ hkt)
      unfold dictGet
      rw [List.find?_cons_of_neg _ (by simp [hne])]
      exact ih hnd.2 ht

theorem recipe_scores_graph_eq (g : IngredientGraph)
    (available : List String) :
    recipe_scores_graph g available =
      (g.recipe_nodes.filter (fun p =>
        (calculate_recipe_match_score g p.1 available).score > 1/10)).map
        (fun p => (p.1, calculate_recipe_match_score g p.1 available)) := by
  unfold recipe_scores_graph
  have h := foldl_append_if
    (fun p : String × Recipe =>
      (calculate_recipe_match_score g p.1 available).score > 1/10)
    (fun p => (p.1, calculate_recipe_match_score g p.1 available))
    g.recipe_nodes []
  rw [List.nil_append] at h
  exact h

/-- Claim C8, confirmed: `recommend_recipes_graph` returns only recipes whose
computed match score exceeds `0.1` and reports exactly that score, ordered
descending; ties in the scored candidate list keep their store-insertion
order in the sorted list; the result has at most `max_results` entries. -/
theorem c8_theorem (g : IngredientGraph) (available : List String)
    (max_results : ℕ) (hwf : RecipeStoreWF g.recipe_nodes) :
    (∀ m ∈ recommend_recipes_graph g available max_results,
      1/10 < m.match_score ∧
      m.match_score =
        (calculate_recipe_match_score g m.recipe.id available).score) ∧
    List.Pairwise (fun m1 m2 => m2.match_score ≤ m1.match_score)
      (recommend_recipes_graph g available max_results) ∧
    (recommend_recipes_graph g available max_results).length ≤ max_results ∧
    (∀ x y, List.Sublist [x, y] (recipe_scores_graph g available) →
      x.2.score = y.2.score →
      List.Sublist [x, y] (recommend_sorted g available)) := by
  refine ⟨?_, ?_, ?_, ?_⟩
  · intro m hm
    obtain ⟨p, hp_take, rfl⟩ := List.mem_map.1 hm
    have hp_sorted : p ∈ recommend_sorted g available :=
      (List.take_sublist _ _).subset hp_take
    have hp_scores : p ∈ recipe_scores_graph g available :=
      (sortDescBy_perm (fun q : String × GraphMatchAnalysis => q.2.score)
        (recipe_scores_graph g available)).subset hp_sorted
    rw [recipe_scores_graph_eq] at hp_scores
    obtain ⟨entry, hentry, rfl⟩ := List.mem_map.1 hp_scores
    have hfil := List.mem_filter.1 hentry
    have hscore : (calculate_recipe_match_score g entry.1 available).score >
        1/10 := by
      have := hfil.2
      simpa using this
    have hlook : dictGet g.recipe_nodes entry.1 = some entry.2 := by
      apply dictGet_eq_of_mem_nodup hwf.1
      exact (Prod.mk.eta (p := entry)) ▸ hfil.1
    have hid : entry.2.id = entry.1 := hwf.2 entry hfil.1
    have hrec : (graph_match_of g
        (entry.1, calculate_recipe_match_score g entry.1 available)).recipe =
        entry.2 := by
      unfold graph_match_of
      simp [hlook]
    constructor
    · exact hscore
    · show (calculate_recipe_match_score g entry.1 available).score = _
      rw [hrec, hid]
  · unfold recommend_recipes_graph
    rw [List.pairwise_map]
    refine List.Pairwise.sublist (List.take_sublist max_results _) ?_
    exact sortDescBy_pairwise (fun q : String × GraphMatchAnalysis =>
      q.2.score) _
  · unfold recommend_recipes_graph
    rw [List.length_map, List.length_take]
    exact min_le_left _ _
  · intro x y hsub heq
    exact sortDescBy_pair_sublist (fun q : String × GraphMatchAnalysis =>
      q.2.score) (le_of_eq heq.symm) hsub

/-- A tiny well-formed store for the C8 witness. -/
def c8w_recipe : Recipe :=
  { id := "r8", name := "Simple", cuisine := none, meal_types := [],
    difficulty := DifficultyLevel.beginner, prep_time_minutes := 5,
    cook_time_minutes := 5, ingredients := [⟨"i8", 1, "g", false⟩],
    dietary_tags := [], equipment_needed := [], average_rating := none,
    popularity_score := 0, ingredient_complexity_score := none }

def c8w_graph : IngredientGraph :=
  { ingredient_nodes := [], recipe_nodes := [("r8", c8w_recipe)] }

def c8w_avail : List String := ["i8"]

theorem c8_witness :
    RecipeStoreWF c8w_graph.recipe_nodes ∧
    ((∀ m ∈ recommend_recipes_graph c8w_graph c8w_avail 10,
      1/10 < m.match_score ∧
      m.match_score =
        (calculate_recipe_match_score c8w_graph m.recipe.id
          c8w_avail).score) ∧
    List.Pairwise (fun m1 m2 => m2.match_score ≤ m1.match_score)
      (recommend_recipes_graph c8w_graph c8w_avail 10) ∧
    (recommend_recipes_graph c8w_graph c8w_avail 10).length ≤ 10 ∧
    (∀ x y, List.Sublist [x, y] (recipe_scores_graph c8w_graph c8w_avail) →
      x.2.score = y.2.score →
      List.Sublist [x, y] (recommend_sorted c8w_graph c8w_avail))) := by
  have hwf : RecipeStoreWF c8w_graph.recipe_nodes := by
    with_unfolding_all decide
  exact ⟨hwf, c8_theorem c8w_graph c8w_avail 10 hwf⟩

/-! ### Recommendation orchestrator (`services/recipe_service.py`)

`RecipeRecommendationService` keeps `self.recipes` / `self.ingredients` in
sync with the graph's node dicts (`add_recipe` / `add_ingredient` insert into
both), so the service state is the two dicts and the graph is their image.
The response fields `analysis_time_ms`, `algorithm_insights` and
`ingredient_gap_analysis` are wall-clock / presentation metadata that no
claim mentions and are omitted from the response model.  The
`try/except` fallback of `_get_recipe_matches` (StrategyFailure masking) has
no counterpart in a total model: the embedded matchers cannot raise. -/

/-- The in-memory stores of `RecipeRecommendationService`. -/
structure ServiceState where
  recipes : List (String × Recipe)
  ingredients : List (String × Ingredient)

/-- The ingredient graph maintained alongside the stores. -/
def to_graph (svc : ServiceState) : IngredientGraph :=
  { ingredient_nodes := svc.ingredients, recipe_nodes := svc.recipes }

/-- `RecipeRecommendationService._select_algorithm` (Python truthiness: an
empty-string preference is falsy and triggers auto-selection). -/
def select_algorithm (svc : ServiceState)
    (request : RecipeSuggestionRequest) : String :=
  if truthyStr request.algorithm_preference then
    request.algorithm_preference.getD ""
  else if 1000 < svc.recipes.length ∨
      20 < request.available_ingredients.length then "greedy"
  else if svc.recipes.length < 100 ∧
      request.available_ingredients.length < 10 then "backtracking"
  else "graph"

/-- Promotion of an exact (rational) match to the response score type. -/
noncomputable def matchQtoR (m : RecipeMatch ℚ) : RecipeMatch ℝ :=
  { recipe := m.recipe
    match_score := (m.match_score : ℝ)
    available_ingredients := m.available_ingredients
    missing_ingredients := m.missing_ingredients
    substitutable_ingredients := m.substitutable_ingredients
    confidence_score := (m.confidence_score : ℝ)
    algorithm_used := m.algorithm_used }

/-- `RecipeRecommendationService._get_recipe_matches` (`max_results = 10`):
dispatch on the selected algorithm string; an unknown string falls back to
the greedy matcher. -/
noncomputable def get_recipe_matches (svc : ServiceState)
    (request : RecipeSuggestionRequest) (algorithm : String) :
    List (RecipeMatch ℝ) :=
  if algorithm = "greedy" then
    (find_recipes_greedy svc.recipes svc.ingredients request 10).map matchQtoR
  else if algorithm = "backtracking" then
    (find_optimal_recipes svc.recipes svc.ingredients request 10).1.map
      matchQtoR
  else if algorithm = "graph" then
    recommend_recipes_graph (to_graph svc)
      (normalize_ingredient_identifiers svc.ingredients
        request.available_ingredients) 10
  else
    (find_recipes_greedy svc.recipes svc.ingredients request 10).map matchQtoR

/-- Which matcher `_get_recipe_matches` actually invokes for a request. -/
def invoked_matcher (svc : ServiceState)
    (request : RecipeSuggestionRequest) : String :=
  let algorithm := select_algorithm svc request
  if algorithm = "greedy" then "greedy"
  else if algorithm = "backtracking" then "backtracking"
  else if algorithm = "graph" then "graph"
  else "greedy"

/-- One entry of `substitution_recommendations`: the missing ingredient id
and its top (≤ 3) substitutes with their similarity scores.  The
human-readable names and notes are presentation-only and omitted. -/
structure SubstitutionRecommendation where
  missing_ingredient : String
  substitutes : List (String × ℝ)

/-- `RecipeRecommendationService._get_substitution_recommendations`: for every
distinct missing ingredient across the matches, the top 3 graph substitutes
(skipped when there are none or the ingredient id is unknown). -/
noncomputable def get_substitution_recommendations (svc : ServiceState)
    (request : RecipeSuggestionRequest) (results : List (RecipeMatch ℝ)) :
    List SubstitutionRecommendation :=
  let available := normalize_ingredient_identifiers svc.ingredients
    request.available_ingredients
  let candidates :=
    (results.foldl (fun acc m => acc ++ m.missing_ingredients) []).dedup
  candidates.foldl (fun acc missing_id =>
    let substitutes := find_ingredient_substitutes (to_graph svc) missing_id
      available
    if substitutes ≠ [] ∧ (dictGet svc.ingredients missing_id).isSome then
      acc ++ [{ missing_ingredient := missing_id,
                substitutes := substitutes.take 3 }]
    else acc) []

/-- The response fields of `RecipeSuggestionResponse` that the claims
mention. -/
structure SuggestionResponse where
  «matches» : List (RecipeMatch ℝ)
  total_recipes_analyzed : ℕ
  substitution_recommendations : List SubstitutionRecommendation

/-- `RecipeRecommendationService.suggest_recipes`. -/
noncomputable def suggest_recipes (svc : ServiceState)
    (request : RecipeSuggestionRequest) : SuggestionResponse :=
  let algorithm := select_algorithm svc request
  let results := get_recipe_matches svc request algorithm
  { «matches» := results
    total_recipes_analyzed := svc.recipes.length
    substitution_recommendations :=
      get_substitution_recommendations svc request results }

/-! ### Clamp bounds and shared matcher invariants -/

/-- Values of the form `min(b, max(a, x))` land in `[a, b]`. -/
theorem pyMin_pyMax_bounds {α : Type} [LinearOrder α] {a b : α} (hab : a ≤ b)
    (x : α) : a ≤ pyMin b (pyMax a x) ∧ pyMin b (pyMax a x) ≤ b := by
  rw [pyMin_eq_min, pyMax_eq_max]
  exact ⟨le_min hab (le_max_left a x), min_le_left b _⟩

/-- Values of the form `max(a, min(b, x))` land in `[a, b]`. -/
theorem pyMax_pyMin_bounds {α : Type} [LinearOrder α] {a b : α} (hab : a ≤ b)
    (x : α) : a ≤ pyMax a (pyMin b x) ∧ pyMax a (pyMin b x) ≤ b := by
  rw [pyMin_eq_min, pyMax_eq_max]
  exact ⟨le_max_left a _, max_le hab (min_le_left b x)⟩

/-- Splitting a list by membership in `avail` splits its length. -/
theorem length_filter_split (l avail : List String) :
    (l.filter (fun i => i ∈ avail)).length +
      (l.filter (fun i => i ∉ avail)).length = l.length := by
  simp only [decide_not]
  exact (List.length_eq_length_filter_add
    (fun i => decide (i ∈ avail))).symm

/-- The per-match facts every matcher guarantees: the listed available
ingredients come from the given available set, and both surfaced scores are
clamped to `[0, 1]`. -/
def matchBounded {α : Type} [LinearOrderedField α] (available : List String)
    (m : RecipeMatch α) : Prop :=
  m.available_ingredients ⊆ available ∧
    0 ≤ m.match_score ∧ m.match_score ≤ 1 ∧
    0 ≤ m.confidence_score ∧ m.confidence_score ≤ 1

/-- Casting an exact match to the real-valued response type preserves the
invariants. -/
theorem matchQtoR_bounded {available : List String} {m : RecipeMatch ℚ}
    (h : matchBounded available m) : matchBounded available (matchQtoR m) := by
  obtain ⟨h1, h2, h3, h4, h5⟩ := h
  refine ⟨h1, ?_, ?_, ?_, ?_⟩
  · show (0 : ℝ) ≤ ((m.match_score : ℚ) : ℝ)
    exact_mod_cast h2
  · show ((m.match_score : ℚ) : ℝ) ≤ 1
    exact_mod_cast h3
  · show (0 : ℝ) ≤ ((m.confidence_score : ℚ) : ℝ)
    exact_mod_cast h4
  · show ((m.confidence_score : ℚ) : ℝ) ≤ 1
    exact_mod_cast h5

/-! ### Bounds and membership lemmas for the greedy matcher -/

/-- The final clamp of `_refine_score` keeps it in `[0, 1]`. -/
theorem refine_score_bounds (initial_score : ℚ) (recipe : Recipe)
    (missing_required : List String)
    (substitutable : List (String × String)) :
    0 ≤ refine_score initial_score recipe missing_required substitutable ∧
      refine_score initial_score recipe missing_required substitutable ≤
        1 := by
  unfold refine_score
  exact pyMin_pyMax_bounds (by norm_num) _

/-- The final clamp of the greedy `_calculate_confidence` keeps it in
`[0, 1]`. -/
theorem calculate_greedy_confidence_bounds (score : ℚ)
    (missing_count total_required : ℕ) :
    0 ≤ calculate_greedy_confidence score missing_count total_required ∧
      calculate_greedy_confidence score missing_count total_required ≤ 1 := by
  unfold calculate_greedy_confidence
  exact pyMax_pyMin_bounds (by norm_num) _

/-- The final clamp of `_calculate_backtracking_score` keeps it in `[0, 1]`
(and the no-required-ingredients short circuit returns `1`). -/
theorem calculate_backtracking_score_bounds (recipe : Recipe)
    (direct_required_matches required direct_matches alls : List String)
    (request : RecipeSuggestionRequest) :
    0 ≤ calculate_backtracking_score recipe direct_required_matches required
        direct_matches alls request ∧
      calculate_backtracking_score recipe direct_required_matches required
        direct_matches alls request ≤ 1 := by
  unfold calculate_backtracking_score
  split
  · norm_num
  · exact pyMin_pyMax_bounds (by norm_num) _

/-- The final clamp of the backtracking `_calculate_confidence_score` keeps
it in `[0, 1]`. -/
theorem calculate_bt_confidence_bounds (match_score : ℚ)
    (missing_count total_required : ℕ) :
    0 ≤ calculate_bt_confidence match_score missing_count total_required ∧
      calculate_bt_confidence match_score missing_count total_required ≤
        1 := by
  unfold calculate_bt_confidence
  exact pyMax_pyMin_bounds (by norm_num) _

/-- Evaluation of `_create_detailed_match` under a successful recipe
lookup. -/
theorem create_detailed_match_eq {recipes : List (String × Recipe)}
    {ingredients : List (String × Ingredient)} {recipe_id : String}
    {available : List String} {initial_score : ℚ} {recipe : Recipe}
    (hd : dictGet recipes recipe_id = some recipe) :
    create_detailed_match recipes ingredients recipe_id available
        initial_score =
      some { recipe := recipe
             match_score := refine_score initial_score recipe
               ((required_ids recipe).filter (fun i => i ∉ available))
               (find_greedy_substitutes ingredients
                 ((required_ids recipe).filter (fun i => i ∉ available))
                 available)
             available_ingredients :=
               (all_ids recipe).filter (fun i => i ∈ available)
             missing_ingredients :=
               (required_ids recipe).filter (fun i => i ∉ available)
             substitutable_ingredients :=
               (find_greedy_substitutes ingredients
                 ((required_ids recipe).filter (fun i => i ∉ available))
                 available).map (fun p => p.1)
             confidence_score := calculate_greedy_confidence
               (refine_score initial_score recipe
                 ((required_ids recipe).filter (fun i => i ∉ available))
                 (find_greedy_substitutes ingredients
                   ((required_ids recipe).filter (fun i => i ∉ available))
                   available))
               ((required_ids recipe).filter (fun i => i ∉ available)).length
               (required_ids recipe).length
             algorithm_used := "greedy" } := by
  unfold create_detailed_match
  rw [hd]

/-- Any match built by `_create_detailed_match` reports the looked-up recipe,
lists only available ingredients, and carries clamped scores. -/
theorem create_detailed_match_spec {recipes : List (String × Recipe)}
    {ingredients : List (String × Ingredient)} {recipe_id : String}
    {available : List String} {initial_score : ℚ} {m : RecipeMatch ℚ}
    (h : create_detailed_match recipes ingredients recipe_id available
      initial_score = some m) :
    dictGet recipes recipe_id = some m.recipe ∧ matchBounded available m := by
  rcases hd : dictGet recipes recipe_id with _ | recipe
  · unfold create_detailed_match at h
    rw [hd] at h
    exact Option.noConfusion h
  · rw [create_detailed_match_eq hd, Option.some_inj] at h
    subst h
    refine ⟨rfl, ?_, (refine_score_bounds _ _ _ _).1,
      (refine_score_bounds _ _ _ _).2,
      (calculate_greedy_confidence_bounds _ _ _).1,
      (calculate_greedy_confidence_bounds _ _ _).2⟩
    intro x hx
    replace hx : x ∈ (all_ids recipe).filter (fun i => i ∈ available) := hx
    simp only [List.mem_filter, decide_eq_true_eq] at hx
    exact hx.2

/-- The entry `heappop` removes is one of the heap's entries. -/
theorem heapMin_mem : ∀ (l : List (ℚ × String)) (x : ℚ × String),
    heapMin x l ∈ x :: l := by
  intro l
  induction l with
  | nil => intro x; simp [heapMin]
  | cons a t ih =>
    intro x
    have hstep : heapMin x (a :: t) =
        heapMin (if heapLexLe x a then x else a) t := rfl
    rw [hstep]
    rcases List.mem_cons.1 (ih (if heapLexLe x a then x else a)) with h | h
    · rw [h]
      by_cases hle : heapLexLe x a <;> simp [hle]
    · exact List.mem_cons_of_mem _ (List.mem_cons_of_mem _ h)

/-- Every match the extraction loop builds comes from a heap entry via
`_create_detailed_match` at score `-entry.1`. -/
theorem extract_top_matches_mem {recipes : List (String × Recipe)}
    {ingredients : List (String × Ingredient)} {available : List String}
    {max_results : ℕ} :
    ∀ (fuel : ℕ) (heap : List (ℚ × String)) (built : List (RecipeMatch ℚ))
      (processed : ℕ) (m : RecipeMatch ℚ),
      m ∈ extract_top_matches recipes ingredients available max_results fuel
        heap built processed →
      m ∈ built ∨ ∃ e ∈ heap,
        create_detailed_match recipes ingredients e.2 available (-e.1) =
          some m := by
  intro fuel
  induction fuel with
  | zero => intro heap built processed m hm; exact Or.inl hm
  | succ fuel ih =>
    intro heap built processed m hm
    cases heap with
    | nil => exact Or.inl hm
    | cons x rest =>
      simp only [extract_top_matches] at hm
      split at hm
      · rcases ih _ _ _ _ hm with h | ⟨e, he, hce⟩
        · cases hc : create_detailed_match recipes ingredients
              (heapMin x rest).2 available (-(heapMin x rest).1) with
          | none =>
            rw [hc] at h
            exact Or.inl h
          | some m0 =>
            rw [hc] at h
            replace h : m ∈ built ++ [m0] := h
            rcases List.mem_append.1 h with h1 | h1
            · exact Or.inl h1
            · rw [List.mem_singleton] at h1
              subst h1
              exact Or.inr ⟨heapMin x rest, heapMin_mem rest x, hc⟩
        · exact Or.inr ⟨e, (List.erase_sublist _ _).subset he, hce⟩
      · exact Or.inl hm

/-- Every entry of the greedy candidate heap comes from a store recipe that
passes the quick filter and scores above `0.1`. -/
theorem greedy_scores_mem (request : RecipeSuggestionRequest)
    (available : List String) :
    ∀ (recipes : List (String × Recipe)) (init : List (ℚ × String))
      (e : ℚ × String),
      e ∈ recipes.foldl (fun acc p =>
        if quick_filter_recipe p.2 request then
          let score := calculate_greedy_score p.2 available request
          if score > 1/10 then acc ++ [(-score, p.1)] else acc
        else acc) init →
      e ∈ init ∨ ∃ p ∈ recipes, quick_filter_recipe p.2 request ∧
        1/10 < calculate_greedy_score p.2 available request ∧
        e = (-(calculate_greedy_score p.2 available request), p.1) := by
  intro recipes
  induction recipes with
  | nil => intro init e he; exact Or.inl he
  | cons a t ih =>
    intro init e he
    rw [List.foldl_cons] at he
    rcases ih _ e he with h | ⟨p, hp, h1, h2, h3⟩
    · by_cases hq : quick_filter_recipe a.2 request
      · by_cases hs : calculate_greedy_score a.2 available request > 1/10
        · simp only [if_pos hq, if_pos hs, List.mem_append,
            List.mem_singleton] at h
          rcases h with h1 | h1
          · exact Or.inl h1
          · exact Or.inr ⟨a, List.mem_cons_self a t, hq, hs, h1⟩
        · simp only [if_pos hq, if_neg hs] at h
          exact Or.inl h
      · simp only [if_neg hq] at h
        exact Or.inl h
    · exact Or.inr ⟨p, List.mem_cons_of_mem a hp, h1, h2, h3⟩

/-- Every match returned by `find_recipes_greedy` is the detailed match of a
store recipe that passed the quick filter and scored above `0.1` against the
normalized available set. -/
theorem find_recipes_greedy_mem {recipes : List (String × Recipe)}
    {ingredients : List (String × Ingredient)}
    {request : RecipeSuggestionRequest} {max_results : ℕ} {m : RecipeMatch ℚ}
    (hm : m ∈ find_recipes_greedy recipes ingredients request max_results) :
    ∃ p ∈ recipes, quick_filter_recipe p.2 request ∧
      1/10 < calculate_greedy_score p.2
        (normalize_ingredient_identifiers ingredients
          request.available_ingredients) request ∧
      create_detailed_match recipes ingredients p.1
        (normalize_ingredient_identifiers ingredients
          request.available_ingredients)
        (calculate_greedy_score p.2
          (normalize_ingredient_identifiers ingredients
            request.available_ingredients) request) = some m := by
  unfold find_recipes_greedy at hm
  rcases extract_top_matches_mem _ _ _ _ _ hm with h | ⟨e, he, hce⟩
  · exact absurd h (List.not_mem_nil m)
  · rcases greedy_scores_mem request
        (normalize_ingredient_identifiers ingredients
          request.available_ingredients) recipes [] e he with
      h | ⟨p, hp, h1, h2, h3⟩
    · exact absurd h (List.not_mem_nil e)
    · subst h3
      simp only [neg_neg] at hce
      exact ⟨p, hp, h1, h2, hce⟩

/-! ### Claim C4: the greedy hard cutoff -/

/-- C4 (amended): for recipes with AT LEAST ONE required ingredient, if the
count of missing required ingredients (required ingredients not in the
normalized available set) exceeds `request.max_missing_ingredients`, the
greedy score is exactly `0` and no match for that recipe appears in the
greedy matcher's output.  Recipes with no required ingredients short-circuit
to score `1.0` BEFORE the cutoff is consulted, so the restriction is
necessary (see the counterexample). -/
theorem c4_amended (recipes : List (String × Recipe))
    (ingredients : List (String × Ingredient))
    (request : RecipeSuggestionRequest) (max_results : ℕ) (r : Recipe)
    (hwf : RecipeStoreWF recipes) (hreq : required_ids r ≠ [])
    (hmiss : request.max_missing_ingredients <
      (((required_ids r).filter (fun i =>
        i ∉ normalize_ingredient_identifiers ingredients
          request.available_ingredients)).length : ℤ)) :
    calculate_greedy_score r
        (normalize_ingredient_identifiers ingredients
          request.available_ingredients) request = 0 ∧
      ∀ m ∈ find_recipes_greedy recipes ingredients request max_results,
        m.recipe ≠ r := by
  have hsplit := length_filter_split (required_ids r)
    (normalize_ingredient_identifiers ingredients
      request.available_ingredients)
  have hle := List.length_filter_le
    (fun i => decide (i ∈ normalize_ingredient_identifiers ingredients
      request.available_ingredients)) (required_ids r)
  have hscore : calculate_greedy_score r
      (normalize_ingredient_identifiers ingredients
        request.available_ingredients) request = 0 := by
    simp only [calculate_greedy_score]
    rw [if_neg hreq]
    split
    · rfl
    · rename_i hc
      exfalso
      omega
  refine ⟨hscore, ?_⟩
  intro m hm heq
  obtain ⟨p, hp, hq, hgt, hc⟩ := find_recipes_greedy_mem hm
  obtain ⟨hd, -⟩ := create_detailed_match_spec hc
  have hdp : dictGet recipes p.1 = some p.2 := by
    apply dictGet_eq_of_mem_nodup hwf.1
    exact (Prod.mk.eta (p := p)) ▸ hp
  rw [hdp, Option.some_inj] at hd
  rw [heq] at hd
  rw [hd, hscore] at hgt
  exact absurd hgt (by norm_num)

/-- Recipe with no required ingredients (its only ingredient is optional). -/
def c4_r : Recipe :=
  { id := "r4", name := "Optional only", cuisine := none, meal_types := [],
    difficulty := DifficultyLevel.beginner, prep_time_minutes := 5,
    cook_time_minutes := 5, ingredients := [⟨"opt4", 1, "g", true⟩],
    dietary_tags := [], equipment_needed := [], average_rating := none,
    popularity_score := 0, ingredient_complexity_score := none }

def c4_store : List (String × Recipe) := [("r4", c4_r)]

/-- Request allowing `-1` missing ingredients: pydantic leaves
`max_missing_ingredients` an unconstrained `int`. -/
def c4_req : RecipeSuggestionRequest :=
  { available_ingredients := [], dietary_preferences := [], meal_type := none,
    max_missing_ingredients := -1, max_prep_time := none,
    max_cook_time := none, difficulty_level := none,
    cuisine_preference := none, exclude_ingredients := [],
    algorithm_preference := none }

/-- Counterexample to claim C4 as stated: a recipe with no required
ingredients is scored `1.0` before the hard cutoff is consulted, so with
`max_missing_ingredients = -1` its missing count (0) exceeds the maximum,
yet its greedy score is `1`, not `0`, and the recipe IS returned by the
greedy matcher. -/
theorem c4_counterexample :
    c4_req.max_missing_ingredients <
      (((required_ids c4_r).filter (fun i =>
        i ∉ normalize_ingredient_identifiers []
          c4_req.available_ingredients)).length : ℤ) ∧
    calculate_greedy_score c4_r
        (normalize_ingredient_identifiers [] c4_req.available_ingredients)
        c4_req = 1 ∧
    ∃ m ∈ find_recipes_greedy c4_store [] c4_req 10, m.recipe = c4_r := by
  refine ⟨by decide, by with_unfolding_all decide, ?_⟩
  with_unfolding_all decide

def c4w_r : Recipe :=
  { id := "r4w", name := "Needs one", cuisine := none, meal_types := [],
    difficulty := DifficultyLevel.beginner, prep_time_minutes := 5,
    cook_time_minutes := 5, ingredients := [⟨"a4", 1, "g", false⟩],
    dietary_tags := [], equipment_needed := [], average_rating := none,
    popularity_score := 0, ingredient_complexity_score := none }

def c4w_store : List (String × Recipe) := [("r4w", c4w_r)]

def c4w_req : RecipeSuggestionRequest :=
  { available_ingredients := [], dietary_preferences := [], meal_type := none,
    max_missing_ingredients := 0, max_prep_time := none,
    max_cook_time := none, difficulty_level := none,
    cuisine_preference := none, exclude_ingredients := [],
    algorithm_preference := none }

theorem c4_witness :
    calculate_greedy_score c4w_r
      (normalize_ingredient_identifiers [] c4w_req.available_ingredients)
      c4w_req = 0 :=
  (c4_amended c4w_store [] c4w_req 10 c4w_r (by decide) (by decide)
    (by decide)).1

/-! ### Boundedness of the backtracking matcher's output -/

/-- Evaluation of `_create_recipe_match` under a successful recipe lookup. -/
theorem create_recipe_match_bt_eq {recipes : List (String × Recipe)}
    {ingredients : List (String × Ingredient)}
    {request : RecipeSuggestionRequest} {available : List String}
    {recipe_id : String} {recipe : Recipe}
    (hd : dictGet recipes recipe_id = some recipe) :
    create_recipe_match_bt recipes ingredients request available recipe_id =
      some { recipe := recipe
             match_score := calculate_backtracking_score recipe
               ((required_ids recipe).filter (fun i => i ∈ available))
               (required_ids recipe)
               ((all_ids recipe).filter (fun i => i ∈ available))
               (all_ids recipe) request
             available_ingredients :=
               (all_ids recipe).filter (fun i => i ∈ available)
             missing_ingredients :=
               (required_ids recipe).filter (fun i => i ∉ available)
             substitutable_ingredients :=
               (find_substitutable_ingredients ingredients
                 ((required_ids recipe).filter (fun i => i ∉ available))
                 available).map (fun p => p.1)
             confidence_score := calculate_bt_confidence
               (calculate_backtracking_score recipe
                 ((required_ids recipe).filter (fun i => i ∈ available))
                 (required_ids recipe)
                 ((all_ids recipe).filter (fun i => i ∈ available))
                 (all_ids recipe) request)
               ((required_ids recipe).filter (fun i => i ∉ available)).length
               (required_ids recipe).length
             algorithm_used := "backtracking" } := by
  unfold create_recipe_match_bt
  rw [hd]

/-- Any match built by `_create_recipe_match` lists only available
ingredients and carries clamped scores. -/
theorem create_recipe_match_bt_spec {recipes : List (String × Recipe)}
    {ingredients : List (String × Ingredient)}
    {request : RecipeSuggestionRequest} {available : List String}
    {recipe_id : String} {m : RecipeMatch ℚ}
    (h : create_recipe_match_bt recipes ingredients request available
      recipe_id = some m) : matchBounded available m := by
  rcases hd : dictGet recipes recipe_id with _ | recipe
  · unfold create_recipe_match_bt at h
    rw [hd] at h
    exact Option.noConfusion h
  · rw [create_recipe_match_bt_eq hd, Option.some_inj] at h
    subst h
    refine ⟨?_, (calculate_backtracking_score_bounds _ _ _ _ _ _).1,
      (calculate_backtracking_score_bounds _ _ _ _ _ _).2,
      (calculate_bt_confidence_bounds _ _ _).1,
      (calculate_bt_confidence_bounds _ _ _).2⟩
    intro x hx
    replace hx : x ∈ (all_ids recipe).filter (fun i => i ∈ available) := hx
    simp only [List.mem_filter, decide_eq_true_eq] at hx
    exact hx.2

/-- `_evaluate_solution` only appends matches built by
`_create_recipe_match`, so it preserves boundedness of the accumulated
best-match list. -/
theorem evaluate_solution_bounded (recipes : List (String × Recipe))
    (ingredients : List (String × Ingredient))
    (request : RecipeSuggestionRequest) (available : List String) :
    ∀ (solution : List String) (best : List (RecipeMatch ℚ)),
      (∀ x ∈ best, matchBounded available x) →
      ∀ x ∈ evaluate_solution recipes ingredients request available solution
        best, matchBounded available x := by
  intro solution
  induction solution with
  | nil => intro best hb; exact hb
  | cons rid rest ih =>
    intro best hb
    unfold evaluate_solution
    simp only [List.foldl_cons]
    have hstep : ∀ y ∈ (if (dictGet recipes rid).isSome then
        match create_recipe_match_bt recipes ingredients request available
          rid with
        | some mm =>
          if mm.match_score > 1/10 ∧
              rid ∉ best.map (fun b => b.recipe.id) then
            best ++ [mm]
          else best
        | none => best
      else best), matchBounded available y := by
      intro y hy
      split at hy
      · cases hc : create_recipe_match_bt recipes ingredients request
            available rid with
        | none =>
          rw [hc] at hy
          exact hb y hy
        | some mm =>
          rw [hc] at hy
          replace hy : y ∈ (if mm.match_score > 1/10 ∧
              rid ∉ best.map (fun b => b.recipe.id) then best ++ [mm]
            else best) := hy
          split at hy
          · rcases List.mem_append.1 hy with h1 | h1
            · exact hb y h1
            · rw [List.mem_singleton] at h1
              subst h1
              exact create_recipe_match_bt_spec hc
          · exact hb y hy
      · exact hb y hy
    intro x hx
    exact ih _ hstep x hx

/-- The backtracking search only accumulates bounded matches. -/
theorem backtrack_search_bounded (recipes : List (String × Recipe))
    (ingredients : List (String × Ingredient))
    (request : RecipeSuggestionRequest) (max_results : ℕ)
    (available : List String) :
    ∀ (cands solution : List String) (st : BTState),
      (∀ x ∈ st.best_matches, matchBounded available x) →
      ∀ x ∈ (backtrack_search recipes ingredients request max_results
        available cands solution st).best_matches,
        matchBounded available x := by
  intro cands
  induction cands with
  | nil =>
    intro solution st hb
    simp only [backtrack_search]
    split
    · exact hb
    · split
      · exact evaluate_solution_bounded recipes ingredients request available
          solution st.best_matches hb
      · exact hb
  | cons rid rest ih =>
    intro solution st hb
    simp only [backtrack_search]
    split
    · exact hb
    · split
      · split
        · exact evaluate_solution_bounded recipes ingredients request
            available solution st.best_matches hb
        · exact hb
      · split
        · exact hb
        · apply ih solution
          split
          · apply ih (solution ++ [rid])
            exact hb
          · exact hb

/-- Every match returned by `find_optimal_recipes` lists only normalized
available ingredients and carries clamped scores. -/
theorem find_optimal_recipes_bounded {recipes : List (String × Recipe)}
    {ingredients : List (String × Ingredient)}
    {request : RecipeSuggestionRequest} {max_results : ℕ} :
    ∀ m ∈ (find_optimal_recipes recipes ingredients request max_results).1,
      matchBounded (normalize_ingredient_identifiers ingredients
        request.available_ingredients) m := by
  intro m hm
  simp only [find_optimal_recipes] at hm
  split at hm
  · simp at hm
  · replace hm : m ∈ (sortDescBy (fun x : RecipeMatch ℚ => x.match_score)
        (backtrack_search recipes ingredients request max_results
          (normalize_ingredient_identifiers ingredients
            request.available_ingredients)
          ((filter_recipes_by_constraints recipes request).map (fun p => p.1))
          [] initial_bt_state).best_matches).take max_results := hm
    have hm2 := (sortDescBy_perm (fun x : RecipeMatch ℚ => x.match_score)
      _).subset ((List.take_sublist _ _).subset hm)
    exact backtrack_search_bounded recipes ingredients request max_results _
      _ [] initial_bt_state (fun x hx => absurd hx (List.not_mem_nil x)) m
      hm2

/-! ### Boundedness of the graph matcher's output -/

/-- The graph match score is clamped to `[0, 1]` and the reported direct
matches come from the available set. -/
theorem calculate_recipe_match_score_spec (g : IngredientGraph)
    (recipe_id : String) (available : List String) :
    0 ≤ (calculate_recipe_match_score g recipe_id available).score ∧
      (calculate_recipe_match_score g recipe_id available).score ≤ 1 ∧
      (calculate_recipe_match_score g recipe_id available).direct_matches ⊆
        available := by
  unfold calculate_recipe_match_score
  split
  · refine ⟨le_refl 0, zero_le_one, ?_⟩
    intro x hx
    exact absurd hx (List.not_mem_nil x)
  · rename_i recipe hd
    refine ⟨(pyMin_pyMax_bounds (by norm_num) _).1,
      (pyMin_pyMax_bounds (by norm_num) _).2, ?_⟩
    intro x hx
    replace hx : x ∈ (all_ids recipe).filter (fun i => i ∈ available) := hx
    simp only [List.mem_filter, decide_eq_true_eq] at hx
    exact hx.2

/-- Every match returned by `recommend_recipes_graph` lists only available
ingredients and carries clamped scores. -/
theorem recommend_recipes_graph_bounded {g : IngredientGraph}
    {available : List String} {max_results : ℕ} {m : RecipeMatch ℝ}
    (hm : m ∈ recommend_recipes_graph g available max_results) :
    matchBounded available m := by
  unfold recommend_recipes_graph at hm
  obtain ⟨p, hp_take, rfl⟩ := List.mem_map.1 hm
  have hp_scores : p ∈ recipe_scores_graph g available :=
    (sortDescBy_perm (fun q : String × GraphMatchAnalysis => q.2.score)
      (recipe_scores_graph g available)).subset
      ((List.take_sublist _ _).subset hp_take)
  rw [recipe_scores_graph_eq] at hp_scores
  obtain ⟨entry, hentry, rfl⟩ := List.mem_map.1 hp_scores
  obtain ⟨h0, h1, h2⟩ := calculate_recipe_match_score_spec g entry.1
    available
  refine ⟨h2, h0, h1, ?_, ?_⟩
  · show (0 : ℝ) ≤ pyMin
      ((calculate_recipe_match_score g entry.1 available).score * (12/10)) 1
    rw [pyMin_eq_min]
    exact le_min (mul_nonneg h0 (by norm_num)) zero_le_one
  · show pyMin
      ((calculate_recipe_match_score g entry.1 available).score * (12/10)) 1 ≤
        1
    rw [pyMin_eq_min]
    exact min_le_right _ _

/-! ### Boundedness of every surfaced match (orchestrator level) -/

/-- Whatever algorithm string the orchestrator dispatches on, every returned
match lists only normalized available ingredients and carries clamped
scores. -/
theorem get_recipe_matches_bounded {svc : ServiceState}
    {request : RecipeSuggestionRequest} {algorithm : String}
    {m : RecipeMatch ℝ}
    (hm : m ∈ get_recipe_matches svc request algorithm) :
    matchBounded (normalize_ingredient_identifiers svc.ingredients
      request.available_ingredients) m := by
  unfold get_recipe_matches at hm
  split_ifs at hm
  · obtain ⟨mq, hmq, rfl⟩ := List.mem_map.1 hm
    obtain ⟨p, hp, hq, hs, hc⟩ := find_recipes_greedy_mem hmq
    exact matchQtoR_bounded (create_detailed_match_spec hc).2
  · obtain ⟨mq, hmq, rfl⟩ := List.mem_map.1 hm
    exact matchQtoR_bounded (find_optimal_recipes_bounded mq hmq)
  · exact recommend_recipes_graph_bounded hm
  · obtain ⟨mq, hmq, rfl⟩ := List.mem_map.1 hm
    obtain ⟨p, hp, hq, hs, hc⟩ := find_recipes_greedy_mem hmq
    exact matchQtoR_bounded (create_detailed_match_spec hc).2

/-! ### Claim C9: backtracking on an empty recipe store -/

def c9_req : RecipeSuggestionRequest :=
  { available_ingredients := ["egg"], dietary_preferences := [],
    meal_type := none, max_missing_ingredients := 3, max_prep_time := none,
    max_cook_time := none, difficulty_level := none,
    cuisine_preference := none, exclude_ingredients := [],
    algorithm_preference := some "backtracking" }

/-- C9, confirmed: with an explicit `"backtracking"` preference and an empty
recipe store, `suggest_recipes` returns no matches and reports zero analyzed
recipes (the constraint filter yields no candidates, so `find_optimal_recipes`
returns immediately). -/
theorem c9_theorem (ingredients : List (String × Ingredient))
    (request : RecipeSuggestionRequest)
    (hpref : request.algorithm_preference = some "backtracking") :
    (suggest_recipes ⟨[], ingredients⟩ request).«matches» = [] ∧
      (suggest_recipes ⟨[], ingredients⟩ request).total_recipes_analyzed =
        0 := by
  have hsel : select_algorithm ⟨[], ingredients⟩ request = "backtracking" := by
    unfold select_algorithm
    rw [hpref]
    rw [if_pos (show truthyStr (some "backtracking") from by decide)]
    rfl
  have hmat : get_recipe_matches ⟨[], ingredients⟩ request "backtracking" =
      [] := by
    unfold get_recipe_matches
    rw [if_neg (by decide), if_pos rfl]
    have hopt : find_optimal_recipes ([] : List (String × Recipe))
        ingredients request 10 = ([], initial_bt_state) := rfl
    rw [hopt]
    rfl
  refine ⟨?_, rfl⟩
  show get_recipe_matches ⟨[], ingredients⟩ request
    (select_algorithm ⟨[], ingredients⟩ request) = []
  rw [hsel]
  exact hmat

theorem c9_witness :
    (suggest_recipes ⟨[], []⟩ c9_req).«matches» = [] ∧
      (suggest_recipes ⟨[], []⟩ c9_req).total_recipes_analyzed = 0 :=
  c9_theorem [] c9_req rfl

/-! ### Claim C5: strategy selection -/

/-- The auto-selection rule of `_select_algorithm` (no usable explicit
preference). -/
def auto_selected_algorithm (svc : ServiceState)
    (request : RecipeSuggestionRequest) : String :=
  if 1000 < svc.recipes.length ∨
      20 < request.available_ingredients.length then "greedy"
  else if svc.recipes.length < 100 ∧
      request.available_ingredients.length < 10 then "backtracking"
  else "graph"

/-- Claim C5 rendered literally: ANY explicit `algorithm_preference` wins,
including the empty string. -/
def select_algorithm_claim (svc : ServiceState)
    (request : RecipeSuggestionRequest) : String :=
  match request.algorithm_preference with
  | some p => p
  | none => auto_selected_algorithm svc request

/-- The matcher the claim's selection rule would invoke (unknown selection
falls back to greedy). -/
def invoked_matcher_claim (svc : ServiceState)
    (request : RecipeSuggestionRequest) : String :=
  let algorithm := select_algorithm_claim svc request
  if algorithm = "greedy" then "greedy"
  else if algorithm = "backtracking" then "backtracking"
  else if algorithm = "graph" then "graph"
  else "greedy"

/-- Amended selection rule: an explicit preference wins only when it is a
NON-EMPTY string (Python truthiness); an empty-string preference falls
through to auto-selection. -/
def select_algorithm_amended (svc : ServiceState)
    (request : RecipeSuggestionRequest) : String :=
  match request.algorithm_preference with
  | some p => if p = "" then auto_selected_algorithm svc request else p
  | none => auto_selected_algorithm svc request

/-- C5 (amended): the implemented selection equals the amended rule (explicit
preference wins only when non-empty; otherwise the >1000-recipes / >20
ingredients, then <100 ∧ <10, then graph cascade), and any selected string
other than the three known names is dispatched to the greedy matcher. -/
theorem c5_amended (svc : ServiceState) (request : RecipeSuggestionRequest) :
    select_algorithm svc request = select_algorithm_amended svc request ∧
      ∀ a : String, a ≠ "greedy" → a ≠ "backtracking" → a ≠ "graph" →
        get_recipe_matches svc request a =
          (find_recipes_greedy svc.recipes svc.ingredients request 10).map
            matchQtoR := by
  constructor
  · unfold select_algorithm select_algorithm_amended
    cases hp : request.algorithm_preference with
    | none =>
      rw [if_neg (show ¬ truthyStr none from fun h => h)]
      rfl
    | some p =>
      by_cases hpe : p = ""
      · subst hpe
        rw [if_neg (show ¬ truthyStr (some "") from fun h => h rfl)]
        rfl
      · rw [if_pos (show truthyStr (some p) from hpe)]
        show p = if p = "" then _ else p
        rw [if_neg hpe]
  · intro a h1 h2 h3
    unfold get_recipe_matches
    rw [if_neg h1, if_neg h2, if_neg h3]

def c5_req : RecipeSuggestionRequest :=
  { available_ingredients := [], dietary_preferences := [], meal_type := none,
    max_missing_ingredients := 3, max_prep_time := none,
    max_cook_time := none, difficulty_level := none,
    cuisine_preference := none, exclude_ingredients := [],
    algorithm_preference := some "" }

/-- Counterexample to claim C5 as stated: with an explicit empty-string
preference on an empty store, the claim's rule picks the preference and falls
back to the greedy matcher, while the code treats the empty string as falsy,
auto-selects, and invokes the backtracking matcher. -/
theorem c5_counterexample :
    invoked_matcher ⟨[], []⟩ c5_req = "backtracking" ∧
      invoked_matcher_claim ⟨[], []⟩ c5_req = "greedy" ∧
      invoked_matcher ⟨[], []⟩ c5_req ≠
        invoked_matcher_claim ⟨[], []⟩ c5_req := by
  refine ⟨?_, ?_, ?_⟩ <;> decide

theorem c5_witness :
    select_algorithm ⟨[], []⟩ c5_req =
        select_algorithm_amended ⟨[], []⟩ c5_req ∧
      get_recipe_matches ⟨[], []⟩ c5_req "mystery" =
        (find_recipes_greedy [] [] c5_req 10).map matchQtoR :=
  ⟨(c5_amended ⟨[], []⟩ c5_req).1,
    (c5_amended ⟨[], []⟩ c5_req).2 "mystery" (by decide) (by decide)
      (by decide)⟩

/-! ### Claim C7: identifier normalization -/

/-- Claim C7 rendered literally: exact id match, OTHERWISE a full
name-matching pass over the store, OTHERWISE a full alias-matching pass
(two separate passes, names strictly before aliases). -/
def resolve_ingredient_identifier_claim
    (ingredients : List (String × Ingredient)) (nm : String) :
    Option String :=
  if (dictGet ingredients nm).isSome then some nm
  else
    match ingredients.find? (fun p => p.2.name.toLower = nm.toLower) with
    | some p => some p.1
    | none =>
      (ingredients.find? (fun p =>
        (p.2.aliases.map (fun a => a.toLower)).contains nm.toLower)).map
        (fun p => p.1)

/-- Whatever the resolver returns is a key of the ingredient store. -/
theorem resolve_isSome {ingredients : List (String × Ingredient)}
    {nm x : String}
    (h : resolve_ingredient_identifier ingredients nm = some x) :
    (dictGet ingredients x).isSome := by
  unfold resolve_ingredient_identifier at h
  split at h
  · rename_i hs
    rw [Option.some_inj] at h
    subst h
    exact hs
  · obtain ⟨p, hfind, hx⟩ := Option.map_eq_some'.1 h
    subst hx
    exact dictGet_isSome_of_key
      (List.mem_map.2 ⟨p, List.mem_of_find?_eq_some hfind, rfl⟩)

/-- A string the resolver drops never appears in the normalized set. -/
theorem normalize_not_mem {ingredients : List (String × Ingredient)}
    {names : List String} {s : String}
    (hres : resolve_ingredient_identifier ingredients s = none) :
    s ∉ normalize_ingredient_identifiers ingredients names := by
  intro hmem
  unfold normalize_ingredient_identifiers at hmem
  obtain ⟨t, ht, hres2⟩ := List.mem_filterMap.1 hmem
  have hsome := resolve_isSome hres2
  unfold resolve_ingredient_identifier at hres
  split at hres
  · exact Option.noConfusion hres
  · rename_i hns
    exact hns hsome

/-- C7 (amended): unresolvable strings are silently dropped — a supplied
string the resolver cannot map to a store id appears neither in the
normalized available set nor in any returned match's `available_ingredients`.
(The resolution order itself differs from the claim: after the exact id
check, the code makes a SINGLE pass matching lowercased name OR alias per
ingredient, first hit wins — not a name pass followed by an alias pass; see
the counterexample.) -/
theorem c7_amended (svc : ServiceState) (request : RecipeSuggestionRequest)
    (s : String)
    (hres : resolve_ingredient_identifier svc.ingredients s = none) :
    s ∉ normalize_ingredient_identifiers svc.ingredients
        request.available_ingredients ∧
      ∀ m ∈ (suggest_recipes svc request).«matches»,
        s ∉ m.available_ingredients := by
  refine ⟨normalize_not_mem hres, ?_⟩
  intro m hm hsm
  exact absurd ((get_recipe_matches_bounded hm).1 hsm)
    (normalize_not_mem hres)

/-- Ingredient whose ALIAS is the other ingredient's NAME. -/
def c7_a : Ingredient :=
  { id := "a7", name := "xname", category := IngredientCategory.vegetable,
    aliases := ["foo"], flavor_profile := ⟨1, 0, 0, 0, 0, 0⟩,
    common_substitutes := [], dietary_tags := [], cost_level := none }

def c7_b : Ingredient :=
  { id := "b7", name := "foo", category := IngredientCategory.vegetable,
    aliases := [], flavor_profile := ⟨1, 0, 0, 0, 0, 0⟩,
    common_substitutes := [], dietary_tags := [], cost_level := none }

def c7_store : List (String × Ingredient) := [("a7", c7_a), ("b7", c7_b)]

/-- Counterexample to claim C7 as stated: querying `"foo"` against a store
where the FIRST ingredient has alias `"foo"` and the SECOND is NAMED `"foo"`.
The claim's name-pass-before-alias-pass rule resolves to `"b7"`; the code's
single name-or-alias pass resolves to `"a7"`. -/
theorem c7_counterexample :
    resolve_ingredient_identifier c7_store "foo" = some "a7" ∧
      resolve_ingredient_identifier_claim c7_store "foo" = some "b7" ∧
      resolve_ingredient_identifier c7_store "foo" ≠
        resolve_ingredient_identifier_claim c7_store "foo" := by
  refine ⟨?_, ?_, ?_⟩ <;> with_unfolding_all decide

def c7w_svc : ServiceState := ⟨[], [("a7", c7_a)]⟩

def c7w_req : RecipeSuggestionRequest :=
  { available_ingredients := ["zzz"], dietary_preferences := [],
    meal_type := none, max_missing_ingredients := 3, max_prep_time := none,
    max_cook_time := none, difficulty_level := none,
    cuisine_preference := none, exclude_ingredients := [],
    algorithm_preference := none }

theorem c7_witness :
    "zzz" ∉ normalize_ingredient_identifiers c7w_svc.ingredients
      c7w_req.available_ingredients :=
  (c7_amended c7w_svc c7w_req "zzz" (by with_unfolding_all decide)).1

/-! ### Claim C1: bounds of every surfaced score -/

/-- The final threshold test of the availability scan passes the combined
score through unchanged. -/
theorem scan_result_bounds {aid : String} {C : ℝ} {e : String × ℝ}
    (hC : 0 ≤ C ∧ C ≤ 12/10)
    (h : (if C > 3/10 then some (aid, C) else none) = some e) :
    0 ≤ e.2 ∧ e.2 ≤ 12/10 := by
  split at h
  · rw [Option.some_inj] at h
    subst h
    exact hC
  · exact Option.noConfusion h

/-- The availability scan's combined score lies in `[0, 1.2]`: the base
similarity is in `[0,1]`, the category bonus multiplies by `1.2`, the
dietary penalty by `0.7`. -/
theorem scan_available_candidate_bounds {g : IngredientGraph}
    {target : Ingredient} {ingredient_id available_id : String}
    {e : String × ℝ}
    (h : scan_available_candidate g target ingredient_id available_id =
      some e) : 0 ≤ e.2 ∧ e.2 ≤ 12/10 := by
  have h0 := calculate_flavor_similarity_nonneg g ingredient_id available_id
  have h1 := calculate_flavor_similarity_le_one g ingredient_id available_id
  unfold scan_available_candidate at h
  split at h
  · exact Option.noConfusion h
  · rename_i available_ing hd
    simp only [] at h
    have hX : 0 ≤ (if ¬ (target.dietary_tags ⊆ available_ing.dietary_tags)
          then (if target.category = available_ing.category then
              calculate_flavor_similarity g ingredient_id available_id *
                (12/10)
            else calculate_flavor_similarity g ingredient_id available_id) *
            (7/10)
          else (if target.category = available_ing.category then
              calculate_flavor_similarity g ingredient_id available_id *
                (12/10)
            else calculate_flavor_similarity g ingredient_id
              available_id)) ∧
        (if ¬ (target.dietary_tags ⊆ available_ing.dietary_tags)
          then (if target.category = available_ing.category then
              calculate_flavor_similarity g ingredient_id available_id *
                (12/10)
            else calculate_flavor_similarity g ingredient_id available_id) *
            (7/10)
          else (if target.category = available_ing.category then
              calculate_flavor_similarity g ingredient_id available_id *
                (12/10)
            else calculate_flavor_similarity g ingredient_id
              available_id)) ≤ 12/10 := by
      split_ifs <;> constructor <;> linarith
    exact scan_result_bounds hX h

/-- Every substitute score returned by `find_ingredient_substitutes` lies in
`[0, 1.2]`. -/
theorem find_ingredient_substitutes_bounds {g : IngredientGraph}
    {ingredient_id : String} {available : List String} :
    ∀ e ∈ find_ingredient_substitutes g ingredient_id available,
      0 ≤ e.2 ∧ e.2 ≤ 12/10 := by
  intro e he
  unfold find_ingredient_substitutes at he
  split at he
  · exact absurd he (List.not_mem_nil e)
  · rename_i target hd
    simp only [] at he
    rw [foldl_append_if (fun s => s ∈ available)
      (fun s => (s, calculate_flavor_similarity g ingredient_id s)),
      foldl_append_toList (scan_available_candidate g target ingredient_id),
      List.nil_append] at he
    have he2 := (sortDescBy_perm (fun p : String × ℝ => p.2) _).subset
      ((List.take_sublist _ _).subset he)
    rcases List.mem_append.1 he2 with h | h
    · obtain ⟨s, hs, rfl⟩ := List.mem_map.1 h
      refine ⟨calculate_flavor_similarity_nonneg g ingredient_id s, ?_⟩
      have := calculate_flavor_similarity_le_one g ingredient_id s
      show calculate_flavor_similarity g ingredient_id s ≤ 12/10
      linarith
    · obtain ⟨aid, ha, hscan⟩ := List.mem_filterMap.1 h
      exact scan_available_candidate_bounds hscan

/-- Every entry the substitution-recommendation loop accumulates is the
take-3 of the graph substitutes of some missing ingredient. -/
theorem substitution_fold_mem {svc : ServiceState} {avail : List String} :
    ∀ (cands : List String) (init : List SubstitutionRecommendation)
      (rec : SubstitutionRecommendation),
      rec ∈ cands.foldl (fun acc missing_id =>
        let substitutes := find_ingredient_substitutes (to_graph svc)
          missing_id avail
        if substitutes ≠ [] ∧ (dictGet svc.ingredients missing_id).isSome
          then
          acc ++ [{ missing_ingredient := missing_id,
                    substitutes := substitutes.take 3 }]
        else acc) init →
      rec ∈ init ∨ ∃ mid, rec =
        ⟨mid, (find_ingredient_substitutes (to_graph svc) mid
          avail).take 3⟩ := by
  intro cands
  induction cands with
  | nil => intro init rec h; exact Or.inl h
  | cons a t ih =>
    intro init rec h
    rw [List.foldl_cons] at h
    rcases ih _ rec h with h1 | h1
    · by_cases hc : find_ingredient_substitutes (to_graph svc) a avail ≠
          [] ∧ (dictGet svc.ingredients a).isSome
      · simp only [if_pos hc, List.mem_append, List.mem_singleton] at h1
        rcases h1 with h2 | h2
        · exact Or.inl h2
        · exact Or.inr ⟨a, h2⟩
      · simp only [if_neg hc] at h1
        exact Or.inl h1
    · exact Or.inr h1

/-- Every similarity score surfaced in `substitution_recommendations` lies
in `[0, 1.2]`. -/
theorem get_substitution_recommendations_spec {svc : ServiceState}
    {request : RecipeSuggestionRequest} {results : List (RecipeMatch ℝ)}
    {rec : SubstitutionRecommendation}
    (h : rec ∈ get_substitution_recommendations svc request results) :
    ∀ e ∈ rec.substitutes, 0 ≤ e.2 ∧ e.2 ≤ 12/10 := by
  intro e he
  unfold get_substitution_recommendations at h
  rcases substitution_fold_mem _ _ _ h with h1 | ⟨mid, rfl⟩
  · exact absurd h1 (List.not_mem_nil rec)
  · replace he : e ∈ (find_ingredient_substitutes (to_graph svc) mid
        (normalize_ingredient_identifiers svc.ingredients
          request.available_ingredients)).take 3 := he
    exact find_ingredient_substitutes_bounds e
      ((List.take_sublist _ _).subset he)

/-- C1 (amended): every surfaced match has `match_score` and
`confidence_score` in `[0, 1]`, and every similarity score attached to a
substitute in `substitution_recommendations` lies in `[0, 1.2]` — NOT
`[0, 1]`: the same-category 1.2 bonus of the substitute scan is surfaced
unclamped by `_get_substitution_recommendations` (see the
counterexample). -/
theorem c1_amended (svc : ServiceState) (request : RecipeSuggestionRequest) :
    (∀ m ∈ (suggest_recipes svc request).«matches»,
      0 ≤ m.match_score ∧ m.match_score ≤ 1 ∧
        0 ≤ m.confidence_score ∧ m.confidence_score ≤ 1) ∧
      ∀ rec ∈ (suggest_recipes svc request).substitution_recommendations,
        ∀ e ∈ rec.substitutes, 0 ≤ e.2 ∧ e.2 ≤ 12/10 := by
  constructor
  · intro m hm
    obtain ⟨-, h2, h3, h4, h5⟩ := get_recipe_matches_bounded hm
    exact ⟨h2, h3, h4, h5⟩
  · intro rec hrec e he
    exact get_substitution_recommendations_spec hrec e he

/-! ### Concrete C1 counterexample: a surfaced similarity of 1.2 -/

def c1_profile : FlavorProfile := ⟨1, 0, 0, 0, 0, 0⟩

def c1_a : Ingredient :=
  { id := "a", name := "IngA", category := IngredientCategory.vegetable,
    aliases := [], flavor_profile := c1_profile,
    common_substitutes := [], dietary_tags := [], cost_level := none }

def c1_b : Ingredient :=
  { id := "b", name := "IngB", category := IngredientCategory.vegetable,
    aliases := [], flavor_profile := c1_profile,
    common_substitutes := [], dietary_tags := [], cost_level := none }

def c1_recipe : Recipe :=
  { id := "r1", name := "Two ingredients", cuisine := none, meal_types := [],
    difficulty := DifficultyLevel.beginner, prep_time_minutes := 5,
    cook_time_minutes := 5,
    ingredients := [⟨"a", 1, "g", false⟩, ⟨"b", 1, "g", false⟩],
    dietary_tags := [], equipment_needed := [], average_rating := none,
    popularity_score := 0, ingredient_complexity_score := none }

def c1_svc : ServiceState :=
  { recipes := [("r1", c1_recipe)], ingredients := [("a", c1_a), ("b", c1_b)] }

def c1_req : RecipeSuggestionRequest :=
  { available_ingredients := ["b"], dietary_preferences := [],
    meal_type := none, max_missing_ingredients := 3, max_prep_time := none,
    max_cook_time := none, difficulty_level := none,
    cuisine_preference := none, exclude_ingredients := [],
    algorithm_preference := some "greedy" }

/-- The exact greedy match for the C1 scenario (ingredient `a` missing but
substitutable by `b`). -/
def c1_m : RecipeMatch ℚ :=
  { recipe := c1_recipe, match_score := 2/5, available_ingredients := ["b"],
    missing_ingredients := ["a"], substitutable_ingredients := ["a"],
    confidence_score := 209/800, algorithm_used := "greedy" }

set_option maxRecDepth 8000 in
theorem c1_greedy : find_recipes_greedy c1_svc.recipes c1_svc.ingredients
    c1_req 10 = [c1_m] := by
  with_unfolding_all decide

theorem c1_matches : get_recipe_matches c1_svc c1_req "greedy" =
    [matchQtoR c1_m] := by
  unfold get_recipe_matches
  rw [if_pos rfl, c1_greedy]
  rfl

theorem c1_lookup_a : dictGet (to_graph c1_svc).ingredient_nodes "a" =
    some c1_a := by
  simp [to_graph, c1_svc, dictGet]

theorem c1_lookup_b : dictGet (to_graph c1_svc).ingredient_nodes "b" =
    some c1_b := by
  simp [to_graph, c1_svc, dictGet]

theorem c1_sim : calculate_flavor_similarity (to_graph c1_svc) "a" "b" =
    1 := by
  unfold calculate_flavor_similarity
  rw [c1_lookup_a, c1_lookup_b]
  simp only
  have hpe : c1_a.flavor_profile = c1_b.flavor_profile := rfl
  rw [hpe, cosine_similarity_self c1_b.flavor_profile
    (by norm_num [dot_profile, c1_b, c1_profile])]
  simp [pyMax]

theorem c1_scan : scan_available_candidate (to_graph c1_svc) c1_a "a" "b" =
    some ("b", (12/10 : ℝ)) := by
  unfold scan_available_candidate
  rw [c1_lookup_b]
  simp only
  rw [c1_sim]
  have hcat : c1_a.category = c1_b.category := rfl
  have hsub : c1_a.dietary_tags ⊆ c1_b.dietary_tags := by
    simp [c1_a, c1_b]
  simp only [hcat, hsub, not_true, if_false, if_true, eq_self_iff_true]
  norm_num

theorem c1_subs : find_ingredient_substitutes (to_graph c1_svc) "a" ["b"] =
    [("b", (12/10 : ℝ))] := by
  unfold find_ingredient_substitutes
  rw [c1_lookup_a]
  simp only
  have hsubs1 : (c1_a.common_substitutes.foldl
      (fun acc substitute_id =>
        if substitute_id ∈ ["b"] then
          acc ++ [(substitute_id,
            calculate_flavor_similarity (to_graph c1_svc) "a" substitute_id)]
        else acc) []) = ([] : List (String × ℝ)) := rfl
  rw [hsubs1]
  simp only [List.foldl_cons, List.foldl_nil, c1_scan, Option.toList_some,
    List.nil_append]
  simp [sortDescBy, List.insertionSort]

theorem c1_norm : normalize_ingredient_identifiers c1_svc.ingredients
    c1_req.available_ingredients = ["b"] := by
  with_unfolding_all decide

theorem c1_subrecs : get_substitution_recommendations c1_svc c1_req
    [matchQtoR c1_m] =
    [{ missing_ingredient := "a", substitutes := [("b", (12/10 : ℝ))] }] := by
  unfold get_substitution_recommendations
  rw [c1_norm]
  have hcand : (([matchQtoR c1_m]).foldl
      (fun acc m => acc ++ m.missing_ingredients) []).dedup = ["a"] := rfl
  rw [hcand]
  simp only [List.foldl_cons, List.foldl_nil, c1_subs]
  rw [if_pos (by refine ⟨List.cons_ne_nil _ _, ?_⟩; decide)]
  rfl

/-- Counterexample to claim C1 as stated: in the C1 scenario the response
surfaces the substitute `b` for the missing ingredient `a` with
`similarity_score = 1.2 > 1` (flavor self-similarity `1` times the
same-category bonus `1.2`, never clamped on this path). -/
theorem c1_counterexample :
    (suggest_recipes c1_svc c1_req).substitution_recommendations =
      [{ missing_ingredient := "a",
         substitutes := [("b", (12/10 : ℝ))] }] ∧
      ¬ ((12/10 : ℝ) ≤ 1) := by
  constructor
  · show get_substitution_recommendations c1_svc c1_req
      (get_recipe_matches c1_svc c1_req (select_algorithm c1_svc c1_req)) = _
    have hsel : select_algorithm c1_svc c1_req = "greedy" := rfl
    rw [hsel, c1_matches]
    exact c1_subrecs
  · norm_num

end FlavorGraph
